import Mathlib

/-!
Verification of the deep-insight and auto-insight engines of the
mini-pandas-ai-txt2sql repository (src/src/deep_insights.py and
src/src/auto_insights.py), as a shallow embedding in Lean 4.

Modelling conventions, fixed once for the whole file:

* Machine floating point numbers are modelled as exact rationals (`ℚ`).
  A float `NaN` is modelled by `Option`-`none` and is propagated explicitly
  wherever pandas produces it (variance of fewer than 2 values, skew of
  fewer than 3 values, correlation of a constant column, ...).
* Values that the source computes with `sqrt` or `log2` (standard
  deviations, Pearson coefficients, entropies) are irrational in general;
  they are carried as exact symbolic expressions (`RVal`) over `ℚ` whose
  denotation into `ℝ` is `RVal.den`.  Comparisons the source performs on
  such values (for example `abs(corr) > 0.7`) are embedded by the
  algebraically equivalent rational comparison on squares, and the
  equivalence with the real-number comparison is proved as a theorem.
* A pandas `DataFrame` is a list of named, homogeneously typed columns;
  cells are `Option` values (`none` = null/NaN/NaT).  `datetime` cells
  carry their epoch timestamp in seconds as an exact rational.
* Python `f"{x:.2f}"` formatting is modelled by exact round-half-even on
  the rational (resp. symbolic) value; `NaN` formats as "nan".
* pandas sorts (`sort_values`, `value_counts`, `nlargest`) are modelled as
  stable sorts; order among exactly tied sort keys is a convention of the
  embedding and no theorem below depends on it.
* matplotlib/seaborn figure objects are external rendering handles and are
  not part of the embedding; a visualization is its metadata record
  (type, title, column, category, score), exactly the fields the source
  attaches next to the figure.
-/

/-- Homogeneously typed column contents: numeric (int/float dtype),
text (object/category dtype) or datetime (datetime64 dtype).
`none` cells are nulls (NaN/NaT). -/
inductive ColVals where
  | numeric (vs : List (Option ℚ))
  | text (vs : List (Option String))
  | datetime (vs : List (Option ℚ))
deriving DecidableEq

/-- One named DataFrame column. -/
structure DCol where
  name : String
  vals : ColVals
deriving DecidableEq

/-- A DataFrame: ordered list of named columns. -/
structure DFrame where
  cols : List DCol
deriving DecidableEq

/-- Number of cells stored in a column. -/
def DCol.len (c : DCol) : ℕ :=
  match c.vals with
  | .numeric vs => vs.length
  | .text vs => vs.length
  | .datetime vs => vs.length

/-- Row count of a DataFrame (`len(df)`): the common column length. -/
def DFrame.nRows (df : DFrame) : ℕ :=
  match df.cols with
  | [] => 0
  | c :: _ => c.len

/-- All columns hold one cell per row. -/
def DFrame.wellFormed (df : DFrame) : Prop :=
  ∀ c ∈ df.cols, c.len = df.nRows

instance (df : DFrame) : Decidable df.wellFormed := by
  unfold DFrame.wellFormed; infer_instance

/-- Number of distinct non-null values in a cell list (pandas `nunique`). -/
def distinctCount {α : Type} [DecidableEq α] (vs : List (Option α)) : ℕ :=
  (vs.filterMap id).dedup.length

/-- pandas `Series.nunique` (distinct non-null values). -/
def DCol.nunique (c : DCol) : ℕ :=
  match c.vals with
  | .numeric vs => distinctCount vs
  | .text vs => distinctCount vs
  | .datetime vs => distinctCount vs

/-- pandas `Series.isna().sum()`: number of null cells. -/
def DCol.isnaSum (c : DCol) : ℕ :=
  match c.vals with
  | .numeric vs => vs.countP (·.isNone)
  | .text vs => vs.countP (·.isNone)
  | .datetime vs => vs.countP (·.isNone)

def DCol.isNumeric (c : DCol) : Bool :=
  match c.vals with | .numeric _ => true | _ => false

def DCol.isText (c : DCol) : Bool :=
  match c.vals with | .text _ => true | _ => false

def DCol.isDatetime (c : DCol) : Bool :=
  match c.vals with | .datetime _ => true | _ => false

/-- Column names, in order (`df.columns`). -/
def DFrame.colNames (df : DFrame) : List String :=
  df.cols.map DCol.name

/-- `df.select_dtypes(include=["number"]).columns`. -/
def DFrame.numericCols (df : DFrame) : List String :=
  (df.cols.filter DCol.isNumeric).map DCol.name

/-- `df.select_dtypes(include=["object", "category"]).columns`. -/
def DFrame.categoricalCols (df : DFrame) : List String :=
  (df.cols.filter DCol.isText).map DCol.name

/-- `df.select_dtypes(include=["datetime64"]).columns`. -/
def DFrame.datetimeCols (df : DFrame) : List String :=
  (df.cols.filter DCol.isDatetime).map DCol.name

/-- Column lookup by name (`df[name]`); first match, as with unique
column labels. -/
def DFrame.getCol (df : DFrame) (name : String) : Option DCol :=
  df.cols.find? (fun c => c.name = name)

/-- Cells of a numeric column by name ([] when absent or non-numeric;
used only where the caller established the column is numeric). -/
def DFrame.numericVals (df : DFrame) (name : String) : List (Option ℚ) :=
  match df.getCol name with
  | some { vals := .numeric vs, .. } => vs
  | _ => []

/-- nunique by column name (0 when the column is absent). -/
def DFrame.nuniqueOf (df : DFrame) (name : String) : ℕ :=
  match df.getCol name with
  | some c => c.nunique
  | none => 0

/-! ### Exact decimal formatting (Python `f"{x:.df}"` and `f"{n:,}"`) -/

/-- Round-half-even of a rational to an integer (the rounding Python's
fixed-point float formatting applies, on the exact value). -/
def roundHalfEven (x : ℚ) : ℤ :=
  let f : ℤ := ⌊x⌋
  let frac : ℚ := x - f
  if frac > 1/2 then f + 1
  else if frac < 1/2 then f
  else if f % 2 = 0 then f else f + 1

/-- Decimal digit string of a natural number. -/
def natDigits (n : ℕ) : String := toString n

/-- Render `n` (nonnegative numerator scaled by `10^d`) as a fixed-point
decimal string with `d` decimals. -/
def renderFixed (n : ℕ) (d : ℕ) : String :=
  if d = 0 then natDigits n
  else
    let s := natDigits n
    let s := if s.length ≤ d then String.mk (List.replicate (d + 1 - s.length) '0') ++ s else s
    let chars := s.toList
    let intPart := chars.take (chars.length - d)
    let fracPart := chars.drop (chars.length - d)
    String.mk intPart ++ "." ++ String.mk fracPart

/-- Python `f"{x:.{d}f}"` on the exact rational value. -/
def fmtFixed (x : ℚ) (d : ℕ) : String :=
  let scaled := x * (10 : ℚ) ^ d
  let r := roundHalfEven scaled
  if r < 0 then "-" ++ renderFixed r.natAbs d else renderFixed r.natAbs d

/-- Fixed-point formatting where the value may be NaN. -/
def fmtFixedOpt (x : Option ℚ) (d : ℕ) : String :=
  match x with
  | some q => fmtFixed q d
  | none => "nan"

/-- Insert thousands separators into a digit list given least significant
digit first. -/
def groupThousands : List Char → List Char
  | [] => []
  | [a] => [a]
  | [a, b] => [a, b]
  | [a, b, c] => [a, b, c]
  | a :: b :: c :: d :: rest => a :: b :: c :: ',' :: groupThousands (d :: rest)

/-- Python `f"{n:,}"` on a natural number. -/
def fmtThousands (n : ℕ) : String :=
  String.mk (groupThousands (natDigits n).toList.reverse).reverse

/-- Display string of a rational cell value: integer-valued cells render
without a decimal point (int dtype convention of the embedding). -/
def qRepr (x : ℚ) : String :=
  if x.den = 1 then toString x.num else fmtFixed x 1

/-! ### Symbolic exact real values (`RVal`)

Float quantities the source derives with `sqrt`/`log2` are carried as
exact expressions over `ℚ`; `RVal.den` is their real denotation. -/

inductive RVal where
  | rat (q : ℚ)
  | addv (a b : RVal)
  | mulv (a b : RVal)
  | divv (a b : RVal)
  | absv (a : RVal)
  | sqrtv (a : RVal)
  | log2v (a : RVal)
  | maxv (a b : RVal)
deriving DecidableEq

/-- Real denotation of a symbolic value.  (The source never divides by
zero on a non-NaN path, so Lean's `x / 0 = 0` is never exercised by any
theorem below.) -/
noncomputable def RVal.den : RVal → ℝ
  | .rat q => (q : ℝ)
  | .addv a b => a.den + b.den
  | .mulv a b => a.den * b.den
  | .divv a b => a.den / b.den
  | .absv a => |a.den|
  | .sqrtv a => Real.sqrt a.den
  | .log2v a => Real.logb 2 a.den
  | .maxv a b => max a.den b.den

/-! ### Basic statistics on cell lists (pandas semantics, exact) -/

/-- Non-null values of a numeric column. -/
def nn (vs : List (Option ℚ)) : List ℚ := vs.filterMap id

/-- Mean of the non-null values (NaN when there are none). -/
def colMean (vs : List (Option ℚ)) : Option ℚ :=
  let xs := nn vs
  if xs.length = 0 then none else some (xs.sum / xs.length)

/-- Sum of squared deviations from the mean over the non-null values. -/
def m2 (vs : List (Option ℚ)) : ℚ :=
  let xs := nn vs
  let mu := xs.sum / xs.length
  (xs.map (fun x => (x - mu) ^ 2)).sum

/-- Sum of cubed deviations from the mean over the non-null values. -/
def m3 (vs : List (Option ℚ)) : ℚ :=
  let xs := nn vs
  let mu := xs.sum / xs.length
  (xs.map (fun x => (x - mu) ^ 3)).sum

/-- pandas `Series.var()` (ddof=1): NaN for fewer than 2 non-null
values. -/
def colVar (vs : List (Option ℚ)) : Option ℚ :=
  let n := (nn vs).length
  if 2 ≤ n then some (m2 vs / (n - 1 : ℚ)) else none

/-- pandas `Series.skew()` (`nanops.nanskew`): NaN for fewer than 3
non-null values, 0 for zero `m2`, else
`(n * sqrt(n-1) / (n-2)) * m3 / m2^1.5` (symbolic). -/
def colSkew (vs : List (Option ℚ)) : Option RVal :=
  let n := (nn vs).length
  if n < 3 then none
  else if m2 vs = 0 then some (.rat 0)
  else some (.mulv
    (.mulv (.rat ((n : ℚ) / ((n : ℚ) - 2))) (.sqrtv (.rat ((n : ℚ) - 1))))
    (.divv (.rat (m3 vs)) (.mulv (.rat (m2 vs)) (.sqrtv (.rat (m2 vs))))))

/-- Rational-valued skewness comparison data for the distribution finding:
whether the skewness exceeds 1 resp. falls below -1.  For `m2 > 0` and
`n ≥ 3` these are the exact squared reformulations of
`skew > 1` / `skew < -1` on the real value of `colSkew`. -/
def skewGtOne (n : ℕ) (s2 s3 : ℚ) : Bool :=
  0 < s3 ∧ ((n : ℚ) ^ 2 * ((n : ℚ) - 1) * s3 ^ 2 > ((n : ℚ) - 2) ^ 2 * s2 ^ 3)

def skewLtNegOne (n : ℕ) (s2 s3 : ℚ) : Bool :=
  s3 < 0 ∧ ((n : ℚ) ^ 2 * ((n : ℚ) - 1) * s3 ^ 2 > ((n : ℚ) - 2) ^ 2 * s2 ^ 3)

/-- Linear-interpolation quantile of the sorted non-null values
(pandas `describe` percentiles); NaN when no values. -/
def colQuantile (vs : List (Option ℚ)) (p : ℚ) : Option ℚ :=
  let xs := (nn vs).mergeSort (fun a b => a ≤ b)
  match xs with
  | [] => none
  | x0 :: _ =>
    let n := xs.length
    let h : ℚ := ((n : ℚ) - 1) * p
    let lo : ℤ := ⌊h⌋
    let a := xs.getD lo.toNat x0
    let b := xs.getD (lo.toNat + 1) a
    some (a + (h - lo) * (b - a))

def colMin (vs : List (Option ℚ)) : Option ℚ :=
  match nn vs with
  | [] => none
  | x :: xs => some (xs.foldl min x)

def colMax (vs : List (Option ℚ)) : Option ℚ :=
  match nn vs with
  | [] => none
  | x :: xs => some (xs.foldl max x)

/-! ### Structure Analyzer (`DeepInsightGenerator.analyze_data_structure`) -/

structure StructureProfile where
  numeric_cols : List String
  categorical_cols : List String
  datetime_cols : List String
  row_count : ℕ
  col_count : ℕ
  id_cols : List String
  grouping_cols : List String
  metric_cols : List String
deriving DecidableEq

/-- `analyze_data_structure` from src/src/deep_insights.py (lines 30-70).
The float threshold `len(df) * 0.9` is compared exactly. -/
def analyze_data_structure (df : DFrame) : StructureProfile :=
  let numeric_cols := df.numericCols
  let categorical_cols := df.categoricalCols
  let datetime_cols := df.datetimeCols
  let row_count := df.nRows
  let col_count := df.cols.length
  let id_cols := numeric_cols.filter
    (fun col => decide ((df.nuniqueOf col : ℚ) > (row_count : ℚ) * (9/10)))
  let grouping_cols := categorical_cols.filter
    (fun col => decide (2 ≤ df.nuniqueOf col ∧ df.nuniqueOf col ≤ 20))
  let metric_cols := numeric_cols.filter (fun col => decide (col ∉ id_cols))
  { numeric_cols := numeric_cols, categorical_cols := categorical_cols,
    datetime_cols := datetime_cols, row_count := row_count,
    col_count := col_count, id_cols := id_cols,
    grouping_cols := grouping_cols, metric_cols := metric_cols }

/-! ### Hypothesis Generator (`generate_hypotheses`, lines 72-166) -/

/-- A hypothesis dictionary.  Payload keys the source only sets for some
kinds are `Option`-valued; reading an absent key is a `KeyError` in the
tester. -/
structure Hypothesis where
  id : ℕ
  title : String
  description : String
  query_type : String
  column : Option String := none
  group_col : Option String := none
  metric_col : Option String := none
  columns : Option (List String) := none
deriving DecidableEq

/-- Columns of `df` with at least one null (`df[col].isna().sum() > 0`),
in column order. -/
def missingCols (df : DFrame) : List String :=
  ((df.cols.filter (fun c => decide (0 < c.isnaSum))).map DCol.name)

def generate_hypotheses (df : DFrame) (s : StructureProfile) : List Hypothesis :=
  let hypotheses : List Hypothesis := []
  -- Hypothesis 1: Distribution of key metrics
  let hypotheses :=
    match s.metric_cols with
    | [] => hypotheses
    | col :: _ =>
      hypotheses ++
        ([{ id := 1,
            title := "Distribution Analysis of \x27" ++ col ++ "\x27",
            description := "What is the distribution of " ++ col ++ "? Are there outliers?",
            query_type := "distribution", column := some col }] : List Hypothesis)
  -- Hypothesis 2: Group comparison
  let hypotheses :=
    match s.grouping_cols, s.metric_cols with
    | group_col :: _, metric_col :: _ =>
      hypotheses ++
        ([{ id := 2,
            title := "Comparison by \x27" ++ group_col ++ "\x27",
            description := "How does " ++ metric_col ++ " vary across different " ++ group_col ++ "?",
            query_type := "group_comparison",
            group_col := some group_col, metric_col := some metric_col }] : List Hypothesis)
    | _, _ => hypotheses
  -- Hypothesis 3: Top/Bottom analysis (only if len(df) > 5)
  let hypotheses :=
    match s.metric_cols with
    | col :: _ =>
      if 5 < df.nRows then
        hypotheses ++
          ([{ id := 3,
              title := "Top & Bottom Analysis for \x27" ++ col ++ "\x27",
              description := "What are the top and bottom performers by " ++ col ++ "?",
              query_type := "top_bottom", column := some col }] : List Hypothesis)
      else hypotheses
    | [] => hypotheses
  -- Hypothesis 4: Correlation analysis
  let hypotheses :=
    match s.metric_cols with
    | col1 :: col2 :: _ =>
      hypotheses ++
        ([{ id := 4,
            title := "Correlation between \x27" ++ col1 ++ "\x27 and \x27" ++ col2 ++ "\x27",
            description := "Is there a relationship between " ++ col1 ++ " and " ++ col2 ++ "?",
            query_type := "correlation", columns := some [col1, col2] }] : List Hypothesis)
    | _ => hypotheses
  -- Hypothesis 5: Missing data analysis
  let hypotheses :=
    match missingCols df with
    | [] => hypotheses
    | mc =>
      hypotheses ++
        ([{ id := 5,
            title := "Missing Data Pattern Analysis",
            description := "Where is data missing and what patterns exist?",
            query_type := "missing_data", columns := some (mc.take 5) }] : List Hypothesis)
  -- Hypothesis 6: Category distribution filler
  let hypotheses :=
    match s.grouping_cols with
    | col :: _ =>
      if hypotheses.length < 5 then
        hypotheses ++
          ([{ id := hypotheses.length + 1,
              title := "Category Distribution of \x27" ++ col ++ "\x27",
              description := "What is the distribution of categories in " ++ col ++ "?",
              query_type := "category_distribution", column := some col }] : List Hypothesis)
      else hypotheses
    | [] => hypotheses
  hypotheses.take 5

/-! ### Hypothesis Tester (`test_hypothesis`, lines 168-254) -/

/-- Raw `data` payloads (`.to_dict()` shapes), as exact values. -/
inductive DVal where
  | statsDict (count : ℕ) (mean : Option ℚ) (std : Option RVal)
      (min q25 q50 q75 max : Option ℚ)
  | groupDict (entries : List (String × Option ℚ × ℕ))
  | topBottom (top bottom : List (String × ℚ))
  | corrVal (r : Option RVal)
  | missingDict (entries : List (String × ℕ))
  | catCounts (entries : List (String × ℕ))
deriving DecidableEq

structure HypResult where
  hypothesis : Hypothesis
  success : Bool
  finding : Option String
  data : Option DVal
deriving DecidableEq

/-- Skew classification used by the distribution finding.  The source
compares the float skewness with 1 and -1; for at least 3 non-null
values this is the exact squared reformulation on `colSkew`. -/
def distSkewDesc (vs : List (Option ℚ)) : String :=
  let xs := nn vs
  if xs.length ≤ 2 then "normally distributed"
  else if skewGtOne xs.length (m2 vs) (m3 vs) then
    "right-skewed (tail towards higher values)"
  else if skewLtNegOne xs.length (m2 vs) (m3 vs) then
    "left-skewed (tail towards lower values)"
  else "normally distributed"

/-- `_format_distribution_finding` (lines 256-270). -/
def format_distribution_finding (col : String) (vs : List (Option ℚ)) : String :=
  "**" ++ col ++ "** ranges from " ++ fmtFixedOpt (colMin vs) 2 ++ " to " ++
    fmtFixedOpt (colMax vs) 2 ++ " with mean " ++ fmtFixedOpt (colMean vs) 2 ++
    " and median " ++ fmtFixedOpt (colQuantile vs (1/2)) 2 ++
    ". The distribution is " ++ distSkewDesc vs ++ "."

/-- `describe().to_dict()` of a numeric column. -/
def distStats (vs : List (Option ℚ)) : DVal :=
  .statsDict (nn vs).length (colMean vs) ((colVar vs).map (fun v => .sqrtv (.rat v)))
    (colMin vs) (colQuantile vs (1/4)) (colQuantile vs (1/2))
    (colQuantile vs (3/4)) (colMax vs)

/-- Aggregate the metric values per distinct non-null group key
(`groupby(g)[m].agg(["mean", "count"])`, group keys ascending), rendering
each key for display. -/
def groupAgg {κ : Type} [DecidableEq κ] (leK : κ → κ → Bool) (render : κ → String)
    (gvals : List (Option κ)) (mvals : List (Option ℚ)) :
    List (String × Option ℚ × ℕ) :=
  let pairs := gvals.zip mvals
  let keys := (gvals.filterMap id).dedup.mergeSort leK
  keys.map (fun k =>
    let ms := (pairs.filter (fun p => decide (p.1 = some k))).map Prod.snd
    let xs := nn ms
    (render k, (if xs.length = 0 then none else some (xs.sum / (xs.length : ℚ)),
       xs.length)))

/-- Descending-by-mean comparison for `sort_values("mean", ascending=False)`;
NaN means sort last (pandas `na_position="last"`). -/
def meanLeB (a b : String × Option ℚ × ℕ) : Bool :=
  match a.2.1, b.2.1 with
  | some x, some y => decide (y ≤ x)
  | some _, none => true
  | none, some _ => false
  | none, none => true

/-- `df.groupby(group_col)[metric_col].agg(["mean", "count"])` followed by
`sort_values("mean", ascending=False)` (lines 200-204), or the error the
source would catch. -/
def group_agg_sorted (df : DFrame) (g m : String) :
    Except String (List (String × Option ℚ × ℕ)) :=
  match df.getCol g with
  | none => .error ("KeyError: " ++ g)
  | some gc =>
    match df.getCol m with
    | none => .error ("KeyError: " ++ m)
    | some mc =>
      match mc.vals with
      | .numeric mvals =>
        let grouped := match gc.vals with
          | .text gvals => groupAgg (fun a b => decide (a ≤ b)) (fun s => s) gvals mvals
          | .numeric gvals => groupAgg (fun a b => decide (a ≤ b)) qRepr gvals mvals
          | .datetime gvals => groupAgg (fun a b => decide (a ≤ b)) qRepr gvals mvals
        .ok (grouped.mergeSort meanLeB)
      | _ => .error ("agg function failed on non-numeric column " ++ m)

/-- `_format_group_comparison_finding` (lines 272-288): top/bottom group by
mean and the percentage difference, 0 when the bottom mean is 0/falsy.
Only called on a non-empty grouping (the source raises `IndexError`
otherwise, which the tester catches). -/
def format_group_comparison_finding (group_col metric_col : String)
    (grouped : List (String × Option ℚ × ℕ)) : String :=
  match grouped with
  | [] => ""
  | top :: rest =>
    let bottom := rest.getLastD top
    let top_mean := top.2.1
    let bottom_mean := bottom.2.1
    let diff_pct : Option ℚ :=
      match bottom_mean with
      | some b =>
        if b = 0 then some 0
        else match top_mean with
          | some t => some ((t - b) / b * 100)
          | none => none
      | none => none
    "**" ++ group_col ++ "** shows significant variation in " ++ metric_col ++
      ". \x27" ++ top.1 ++ "\x27 has the highest average (" ++
      fmtFixedOpt top_mean 2 ++ "), while \x27" ++ bottom.1 ++
      "\x27 has the lowest (" ++ fmtFixedOpt bottom_mean 2 ++
      "). Difference: " ++ fmtFixedOpt diff_pct 1 ++ "%."

/-- Pairwise-complete co-moment sums for `Series.corr` (Pearson):
`(sum (x-x̄)(y-ȳ), sum (x-x̄)², sum (y-ȳ)²)` over rows where both cells
are non-null.  The Pearson coefficient is `sxy / sqrt(sxx * syy)`, NaN
exactly when `sxx * syy = 0`. -/
def corrStat (avals bvals : List (Option ℚ)) : ℚ × ℚ × ℚ :=
  let ps := (avals.zip bvals).filterMap
    (fun p => match p with | (some x, some y) => some (x, y) | _ => none)
  let n := ps.length
  let xm := (ps.map Prod.fst).sum / (n : ℚ)
  let ym := (ps.map Prod.snd).sum / (n : ℚ)
  ((ps.map (fun p => (p.1 - xm) * (p.2 - ym))).sum,
   (ps.map (fun p => (p.1 - xm) ^ 2)).sum,
   (ps.map (fun p => (p.2 - ym) ^ 2)).sum)

/-- Strength classification of `_format_correlation_finding` (lines
306-323): `abs(corr) > 0.7 / 0.4 / 0.2`, embedded as the equivalent
comparison of `sxy²` with `t² * sxx * syy` (NaN compares false, matching
a NaN float coefficient).  The equivalence with the real `|r|` comparison
is proved in the correlation theorem below. -/
def corrStrength (sxy sxx syy : ℚ) : String :=
  if sxy ^ 2 > (49/100) * (sxx * syy) then "strong"
  else if sxy ^ 2 > (16/100) * (sxx * syy) then "moderate"
  else if sxy ^ 2 > (4/100) * (sxx * syy) then "weak"
  else "no"

/-- Direction: `"positive" if corr > 0 else "negative"`; `corr > 0` iff
`sxy > 0` (a NaN/zero coefficient has `sxy = 0` and compares false). -/
def corrDirection (sxy : ℚ) : String :=
  if 0 < sxy then "positive" else "negative"

/-- Integer square root by digit recursion (`sqrt n` from `sqrt (n/4)`),
structurally recursive on a fuel bound so that concrete evaluations
reduce in logarithmic depth. -/
def nsqrtAux : ℕ → ℕ → ℕ
  | 0, _ => 0
  | fuel + 1, n =>
    if n = 0 then 0
    else
      let r := 2 * nsqrtAux fuel (n / 4)
      if (r + 1) ^ 2 ≤ n then r + 1 else r

def nsqrt (n : ℕ) : ℕ := nsqrtAux n n

/-- Floor of the square root of a nonnegative rational. -/
def ratSqrtFloor (x : ℚ) : ℕ :=
  nsqrt (x.num.toNat * x.den) / x.den

/-- Round-half-even of the square root of a nonnegative rational. -/
def ratSqrtRound (x : ℚ) : ℕ :=
  let k := ratSqrtFloor x
  let half : ℚ := (((2 * k + 1 : ℕ) : ℚ)) ^ 2 / 4
  if x > half then k + 1 else if x < half then k
  else if k % 2 = 0 then k else k + 1

/-- Python `f"{corr:.3f}"` (here for `d` decimals) on the exact Pearson
coefficient `sxy / sqrt(sxx*syy)`; "nan" when the coefficient is NaN. -/
def fmtCorr (sxy sxx syy : ℚ) (d : ℕ) : String :=
  let S := sxx * syy
  if S = 0 then "nan"
  else
    let scaled2 : ℚ := (sxy * (10 : ℚ) ^ d) ^ 2 / S
    let k := ratSqrtRound scaled2
    if sxy < 0 then "-" ++ renderFixed k d else renderFixed k d

/-- `_format_correlation_finding` (lines 306-323). -/
def format_correlation_finding (col1 col2 : String) (sxy sxx syy : ℚ) : String :=
  "There is a **" ++ corrStrength sxy sxx syy ++ " " ++ corrDirection sxy ++
    " correlation** (r=" ++ fmtCorr sxy sxx syy 3 ++ ") between " ++
    col1 ++ " and " ++ col2 ++ "."

/-- Substring test (`sub in s` for nonempty `sub`). -/
def strContains (s sub : String) : Bool := (s.splitOn sub).length > 1

/-- Display string of every cell of a column (`str(row[c])`). -/
def DCol.cellStrs (c : DCol) : List String :=
  match c.vals with
  | .numeric vs => vs.map (fun x => match x with | some q => qRepr q | none => "nan")
  | .text vs => vs.map (fun x => match x with | some s => s | none => "nan")
  | .datetime vs => vs.map (fun x => match x with | some q => qRepr q | none => "NaT")

/-- `_format_top_bottom_finding` (lines 290-304). -/
def format_top_bottom_finding (col : String) (top5 bottom5 : List (String × ℚ)) :
    String :=
  let top_items := top5.map (fun p => p.1 ++ " (" ++ fmtFixed p.2 2 ++ ")")
  let bottom_items := bottom5.map (fun p => p.1 ++ " (" ++ fmtFixed p.2 2 ++ ")")
  "**Top 5 by " ++ col ++ "**: " ++ String.intercalate ", " (top_items.take 3) ++
    "...\n**Bottom 5 by " ++ col ++ "**: " ++
    String.intercalate ", " (bottom_items.take 3) ++ "..."

/-- `_format_missing_data_finding` (lines 325-334). -/
def format_missing_data_finding (stats : List (String × ℕ)) (total_rows : ℕ) :
    String :=
  let findings := stats.map (fun p =>
    let pct : Option ℚ :=
      if total_rows = 0 then none
      else some ((p.2 : ℚ) / (total_rows : ℚ) * 100)
    "- **" ++ p.1 ++ "**: " ++ toString p.2 ++ " missing (" ++
      fmtFixedOpt pct 1 ++ "%)")
  "Missing data found:\n" ++ String.intercalate "\n" findings

/-- `value_counts()` of a column: distinct non-null values with their
counts, descending by count (stable over first occurrence), each with a
display string and a Python-repr string for dict rendering. -/
def valueCountsG {α : Type} [DecidableEq α] (render rep : α → String)
    (vs : List (Option α)) : List (String × String × ℕ) :=
  let xs := vs.filterMap id
  let keys := xs.dedup
  (keys.map (fun k => (render k, rep k, xs.count k))).mergeSort
    (fun a b => decide (b.2.2 ≤ a.2.2))

def DCol.valueCounts (c : DCol) : List (String × String × ℕ) :=
  match c.vals with
  | .numeric vs => valueCountsG qRepr qRepr vs
  | .text vs => valueCountsG (fun s => s) (fun s => "\x27" ++ s ++ "\x27") vs
  | .datetime vs => valueCountsG qRepr qRepr vs

/-- Python `f"{dict(list(dist.head(5).items()))}"`. -/
def dictRepr (entries : List (String × String × ℕ)) : String :=
  "\x7b" ++ String.intercalate ", "
    (entries.map (fun e => e.2.1 ++ ": " ++ toString e.2.2)) ++ "\x7d"

/-- `_format_category_finding` (lines 336-346).  Only called on a
non-empty distribution. -/
def format_category_finding (col : String) (dist : List (String × String × ℕ)) :
    String :=
  match dist with
  | [] => ""
  | topE :: _ =>
    let total := (dist.map (fun e => e.2.2)).sum
    let top_pct : ℚ := (topE.2.2 : ℚ) / (total : ℚ) * 100
    "**" ++ col ++ "** has " ++ toString dist.length ++
      " unique categories. Most common: \x27" ++ topE.1 ++ "\x27 (" ++
      fmtFixed top_pct 1 ++ "% of total). Distribution: " ++
      dictRepr (dist.take 5)

/-- The guarded body of `test_hypothesis` (the `try:` block, lines
187-248): either the fully populated result of the matching branch, the
untouched initial result for an unrecognized `query_type`, or the caught
exception's message. -/
def test_hypothesis_core (df : DFrame) (h : Hypothesis) : Except String HypResult :=
  if h.query_type = "distribution" then
    match h.column with
    | none => .error "\x27column\x27"
    | some col =>
      match df.getCol col with
      | none => .error ("KeyError: " ++ col)
      | some dc =>
        match dc.vals with
        | .numeric vs =>
          .ok { hypothesis := h, success := true,
                finding := some (format_distribution_finding col vs),
                data := some (distStats vs) }
        | _ => .error "\x27min\x27"
  else if h.query_type = "group_comparison" then
    match h.group_col with
    | none => .error "\x27group_col\x27"
    | some g =>
      match h.metric_col with
      | none => .error "\x27metric_col\x27"
      | some m =>
        match group_agg_sorted df g m with
        | .error e => .error e
        | .ok [] => .error "index 0 is out of bounds for axis 0 with size 0"
        | .ok (top :: rest) =>
          .ok { hypothesis := h, success := true,
                finding := some (format_group_comparison_finding g m (top :: rest)),
                data := some (.groupDict ((top :: rest).take 10)) }
  else if h.query_type = "top_bottom" then
    match h.column with
    | none => .error "\x27column\x27"
    | some col =>
      let id_cols := df.colNames.filter
        (fun c => strContains c.toLower "name" || strContains c.toLower "id")
      match (match id_cols with | c :: _ => some c | [] => df.colNames.head?) with
      | none => .error "index 0 is out of bounds for axis 0 with size 0"
      | some display_col =>
        match df.getCol col with
        | none => .error ("KeyError: " ++ col)
        | some dc =>
          match dc.vals with
          | .numeric vs =>
            let displayStrs :=
              match df.getCol display_col with
              | some c => c.cellStrs
              | none => []
            let rows := (displayStrs.zip vs).filterMap
              (fun p => match p.2 with | some v => some (p.1, v) | none => none)
            let top5 := (rows.mergeSort (fun a b => decide (b.2 ≤ a.2))).take 5
            let bottom5 := (rows.mergeSort (fun a b => decide (a.2 ≤ b.2))).take 5
            .ok { hypothesis := h, success := true,
                  finding := some (format_top_bottom_finding col top5 bottom5),
                  data := some (.topBottom top5 bottom5) }
          | _ => .error ("Column \x27" ++ col ++ "\x27 has dtype object, cannot use method \x27nlargest\x27 with this dtype")
  else if h.query_type = "correlation" then
    match h.columns with
    | none => .error "\x27columns\x27"
    | some cols =>
      match cols with
      | c1 :: c2 :: _ =>
        match df.getCol c1, df.getCol c2 with
        | some a, some b =>
          match a.vals, b.vals with
          | .numeric av, .numeric bv =>
            let st := corrStat av bv
            .ok { hypothesis := h, success := true,
                  finding := some (format_correlation_finding c1 c2 st.1 st.2.1 st.2.2),
                  data := some (.corrVal
                    (if st.2.1 * st.2.2 = 0 then none
                     else some (.divv (.rat st.1) (.sqrtv (.rat (st.2.1 * st.2.2)))))) }
          | _, _ => .error "could not convert string to float"
        | _, _ => .error ("KeyError: " ++ c1 ++ "/" ++ c2)
      | _ => .error "list index out of range"
  else if h.query_type = "missing_data" then
    match h.columns with
    | none => .error "\x27columns\x27"
    | some cols =>
      match cols.mapM (fun c =>
          match df.getCol c with
          | some dc => Except.ok (c, dc.isnaSum)
          | none => Except.error ("KeyError: " ++ c)) with
      | .error e => .error e
      | .ok missing_stats =>
        .ok { hypothesis := h, success := true,
              finding := some (format_missing_data_finding missing_stats df.nRows),
              data := some (.missingDict missing_stats) }
  else if h.query_type = "category_distribution" then
    match h.column with
    | none => .error "\x27column\x27"
    | some col =>
      match df.getCol col with
      | none => .error ("KeyError: " ++ col)
      | some dc =>
        match dc.valueCounts with
        | [] => .error "index 0 is out of bounds for axis 0 with size 0"
        | dist =>
          .ok { hypothesis := h, success := true,
                finding := some (format_category_finding col dist),
                data := some (.catCounts ((dist.take 10).map (fun e => (e.1, e.2.2)))) }
  else
    .ok { hypothesis := h, success := false, finding := none, data := none }

/-- `test_hypothesis` (lines 168-254): runs the guarded body; any caught
exception is downgraded to a failure result with a human-readable cause
and the initial `None` data payload. -/
def test_hypothesis (df : DFrame) (h : Hypothesis) : HypResult :=
  match test_hypothesis_core df h with
  | .ok r => r
  | .error e =>
    { hypothesis := h, success := false,
      finding := some ("Could not test this hypothesis: " ++ e), data := none }

/-! ### Deep Insight Report Builder (`generate_deep_insights`, lines
348-403) -/

/-- The report lines one iteration of the hypothesis loop appends
(lines 381-394): header marked by success, description, and the finding
when it is non-empty (a `None` or empty finding appends no line). -/
def render_hypothesis_section (df : DFrame) (h : Hypothesis) : List String :=
  let result := test_hypothesis df h
  let status := if result.success then "✅" else "❌"
  ["\n#### " ++ status ++ " Hypothesis " ++ toString h.id ++ ": " ++ h.title ++ "\n",
   "_" ++ h.description ++ "_\n\n"] ++
    (match result.finding with
     | some f => if f = "" then [] else [f ++ "\n"]
     | none => [])

/-- The report lines contributed by one dataset (loop body, lines
360-396). -/
def dataset_section (df : DFrame) (name : String) : List String :=
  let s := analyze_data_structure df
  let head := ["\n## " ++ name ++ "\n",
    "**Dataset**: " ++ fmtThousands s.row_count ++ " rows × " ++
      toString s.col_count ++ " columns\n"]
  let hypotheses := generate_hypotheses df s
  if hypotheses = [] then
    head ++ ["_Could not generate hypotheses for this dataset._\n"]
  else
    head ++
      (["\n### Testing " ++ toString hypotheses.length ++ " Hypotheses\n"] ++
        hypotheses.flatMap (render_hypothesis_section df)) ++
      ["\n---\n"]

/-- The full `insights_text` line list the builder joins with newlines. -/
def deep_insight_lines (dataframes : List DFrame) (names : List String) :
    List String :=
  ["# Deep Data Insights\n",
   "_Generated by analyzing data structure and testing hypotheses_\n"] ++
    (dataframes.zip names).flatMap (fun p => dataset_section p.1 p.2)

structure DeepReport where
  insights_text : String
  hypotheses_results : List HypResult
  hypothesis_count : ℕ
  successful_count : ℕ
deriving DecidableEq

/-- `__init__` name defaulting: `names or [f"Dataset {i+1}" ...]`
(an omitted or empty list falls back to the generated names). -/
def initNames (dataframes : List DFrame) (names : Option (List String)) :
    List String :=
  match names with
  | some (n :: ns) => n :: ns
  | _ => (List.range dataframes.length).map (fun i => "Dataset " ++ toString (i + 1))

/-- `generate_deep_insights` (lines 348-403). -/
def generate_deep_insights (dataframes : List DFrame) (names : List String) :
    DeepReport :=
  let all_results := (dataframes.zip names).flatMap
    (fun p => (generate_hypotheses p.1 (analyze_data_structure p.1)).map
      (test_hypothesis p.1))
  { insights_text := String.intercalate "\n" (deep_insight_lines dataframes names),
    hypotheses_results := all_results,
    hypothesis_count := all_results.length,
    successful_count := (all_results.filter (fun r => r.success)).length }

/-! ### Visualization Generator (`AutoInsight.generate_visualizations`,
src/src/auto_insights.py lines 73-248) -/

/-- One visualization's metadata record (the figure handle is an external
rendering object, see the file header).  A `none` score is a float NaN. -/
structure Viz where
  vtype : String
  title : String
  column : Option String
  category : String
  score : Option RVal
deriving DecidableEq

/-- Cells of a text column by name. -/
def DFrame.textVals (df : DFrame) (name : String) : List (Option String) :=
  match df.getCol name with
  | some { vals := .text vs, .. } => vs
  | _ => []

/-- The external `pd.to_datetime` parser, modelled as ISO `YYYY-MM-DD`
recognition mapped to an affine day count in seconds (the embedding of
the external date-parsing collaborator; only order and differences of
parsed dates ever matter, and no theorem depends on the mapping). -/
def parseDate (s : String) : Option ℚ :=
  match s.splitOn "-" with
  | [y, m, d] =>
    match y.toNat?, m.toNat?, d.toNat? with
    | some yn, some mn, some dn =>
      if y.length = 4 ∧ m.length = 2 ∧ d.length = 2 ∧
          1 ≤ mn ∧ mn ≤ 12 ∧ 1 ≤ dn ∧ dn ≤ 31 then
        some (((yn * 366 + mn * 31 + dn) * 86400 : ℕ) : ℚ)
      else none
    | _, _, _ => none
  | _ => none

/-- `pd.to_datetime(df[col], errors="raise")` succeeds iff every non-null
cell parses (nulls become NaT without raising). -/
def objColParses (vs : List (Option String)) : Bool :=
  vs.all (fun x => match x with | none => true | some s => (parseDate s).isSome)

/-- Timestamp cells of the chosen date column: a datetime column's own
values, or a text column parsed cell-wise. -/
def DFrame.dateValsOf (df : DFrame) (name : String) : List (Option ℚ) :=
  match df.getCol name with
  | some { vals := .datetime vs, .. } => vs
  | some { vals := .text vs, .. } => vs.map (fun x => x.bind parseDate)
  | _ => []

def DFrame.valueCountsOf (df : DFrame) (name : String) :
    List (String × String × ℕ) :=
  match df.getCol name with
  | some c => c.valueCounts
  | none => []

/-- Histogram interestingness score (lines 97-100):
`var/(std + 1e-10) + |skew| * 10`, NaN whenever the variance (fewer than
2 non-null values) or the skew (fewer than 3, with at least 1) is NaN. -/
def histScore (vs : List (Option ℚ)) : Option RVal :=
  let xs := nn vs
  let skewness : Option RVal :=
    if 0 < xs.length then (colSkew vs).map RVal.absv else some (.rat 0)
  match colVar vs, skewness with
  | some v, some sk =>
    some (.addv (.divv (.rat v) (.addv (.sqrtv (.rat v)) (.rat (1 / 10 ^ 10))))
      (.mulv sk (.rat 10)))
  | _, _ => none

/-- Bar-chart interestingness score (lines 132-139): Shannon entropy of
the normalized top-10 frequency distribution plus `(1 - imbalance) * 5`;
NaN on an empty distribution (`max()` of an empty series). -/
def barScore (counts : List ℕ) : Option RVal :=
  match counts with
  | [] => none
  | c0 :: rest =>
    let T : ℚ := ((counts.map (fun c => (c : ℚ))).sum)
    let entropy : RVal := .mulv (.rat (-1))
      (counts.foldr (fun c acc =>
        .addv (.mulv (.rat ((c : ℚ) / T)) (.log2v (.rat ((c : ℚ) / T + 1 / 10 ^ 10))))
          acc) (.rat 0))
    let imbalance : ℚ := ((rest.foldl max c0 : ℕ) : ℚ) / T
    some (.addv entropy (.mulv (.rat (1 - imbalance)) (.rat 5)))

def allEqQ (l : List ℚ) : Bool :=
  match l with
  | [] => true
  | x :: rest => rest.all (fun y => decide (y = x))

/-- Trend score (lines 182-194): `|linregress r| * 30`; 10.0 whenever
`scipy.stats.linregress` raises (empty input, or all x values identical);
NaN when a NaT date makes the regression NaN; 0 when either variance is
zero (scipy then sets r = 0).  scipy's clamp of r to [-1, 1] is a no-op
on the exact value. -/
def lineScore (xs ys : List (Option ℚ)) : Option RVal :=
  if xs.length = 0 then some (.rat 10)
  else if xs.any (fun x => x.isNone) then none
  else
    let xv := xs.filterMap id
    if 1 < xv.length ∧ allEqQ xv then some (.rat 10)
    else
      let st := corrStat xs (ys.map (fun y => some (y.getD 0)))
      if st.2.1 = 0 ∨ st.2.2 = 0 then some (.mulv (.absv (.rat 0)) (.rat 30))
      else some (.mulv
        (.absv (.divv (.rat st.1) (.sqrtv (.rat (st.2.1 * st.2.2))))) (.rat 30))

/-- Ordered strict-upper-triangle pairs (`np.triu_indices_from(..., k=1)`
in row-major order). -/
def triuPairs {α : Type} : List α → List (α × α)
  | [] => []
  | x :: rest => rest.map (fun y => (x, y)) ++ triuPairs rest

/-- Heatmap score (lines 231-235):
`max |off-diagonal corr| * 50 + mean |off-diagonal corr| * 20`; NaN as
soon as one pairwise coefficient is NaN (numpy max/mean propagate it). -/
def heatmapScore (colsVals : List (List (Option ℚ))) : Option RVal :=
  let entries : List (Option RVal) := (triuPairs colsVals).map (fun p =>
    let st := corrStat p.1 p.2
    if st.2.1 * st.2.2 = 0 then none
    else some (.divv (.rat st.1) (.sqrtv (.rat (st.2.1 * st.2.2)))))
  if entries.any (fun e => e.isNone) then none
  else
    match entries.filterMap id with
    | [] => some (.rat 0)  -- empty guard of the source; unreachable for ≥ 2 columns
    | e :: rest =>
      let absList := (e :: rest).map RVal.absv
      let mx := match absList with
        | [] => RVal.rat 0
        | a :: as' => as'.foldl RVal.maxv a
      let avg := RVal.divv (absList.foldr (fun x acc => .addv x acc) (.rat 0))
        (.rat (absList.length : ℚ))
      some (.addv (.mulv mx (.rat 50)) (.mulv avg (.rat 20)))

/-- The visualizations one dataset contributes, in source order:
histograms (first 6 numeric columns), bars (first 3 categorical columns
with ≤ 20 distinct values), trend lines (first date-like column against
the first 2 numeric columns, when both exist), correlation heatmap
(when ≥ 2 numeric columns). -/
def viz_for_df (df : DFrame) (name : String) : List Viz :=
  let numeric_cols := df.numericCols
  let hists := (numeric_cols.take 6).map (fun col =>
    { vtype := "histogram", title := name ++ " - Distribution of " ++ col,
      column := some col, category := "distribution",
      score := histScore (df.numericVals col) : Viz })
  let categorical_cols := df.categoricalCols
  let bars := ((categorical_cols.take 3).filter
      (fun col => decide (df.nuniqueOf col ≤ 20))).map (fun col =>
    { vtype := "bar", title := name ++ " - Top Values in " ++ col,
      column := some col, category := "categorical",
      score := barScore (((df.valueCountsOf col).take 10).map (fun e => e.2.2)) : Viz })
  let date_cols := df.datetimeCols ++
    ((df.cols.filter (fun c =>
      match c.vals with | .text vs => objColParses vs | _ => false)).map DCol.name)
  let lines :=
    match date_cols, numeric_cols with
    | date_col :: _, _ :: _ =>
      (numeric_cols.take 2).map (fun num_col =>
        { vtype := "line", title := name ++ " - Trend of " ++ num_col,
          column := some num_col, category := "trending",
          score := lineScore (df.dateValsOf date_col) (df.numericVals num_col) : Viz })
    | _, _ => []
  let heat :=
    if 1 < numeric_cols.length then
      [{ vtype := "heatmap", title := name ++ " - Correlation Matrix",
         column := none, category := "correlation",
         score := heatmapScore ((numeric_cols.take 10).map df.numericVals) : Viz }]
    else []
  hists ++ bars ++ lines ++ heat

/-- `generate_visualizations` (lines 73-248) over the instance's
dataframes and names. -/
def generate_visualizations (dataframes : List DFrame) (names : List String) :
    List Viz :=
  (dataframes.zip names).flatMap (fun p => viz_for_df p.1 p.2)

/-! ### Auto-Insight Report Builder (`generate_summary_statistics`,
`generate_insights_text`, `generate_full_report`, lines 29-335) -/

/-- Per-dataset summary.  The describe table body and the dtype map are
built but never consumed downstream; the numeric describe table is
carried by its column list (the only part read again), the rest of the
summary exactly as read by `generate_insights_text`. -/
structure Summary where
  name : String
  shape : ℕ × ℕ
  columns : List String
  missing_values : Option (List (String × ℕ))
  numeric_summary : Option (List String)
  categorical_summary : Option (List (String × ℕ × List (String × ℕ)))
deriving DecidableEq

/-- Python dict insert: replace in place when the key exists, else
append. -/
def dictUpsert (l : List (String × Summary)) (k : String) (v : Summary) :
    List (String × Summary) :=
  if l.any (fun e => decide (e.1 = k)) then
    l.map (fun e => if e.1 = k then (k, v) else e)
  else l ++ [(k, v)]

/-- The summary dict built for one dataset by
`generate_summary_statistics` (lines 37-69). -/
def mkSummary (df : DFrame) (name : String) : Summary :=
  let numeric_cols := df.numericCols
  let missing := df.cols.map (fun c => (c.name, c.isnaSum))
  let missingTotal := (missing.map Prod.snd).sum
  let categorical_cols := df.categoricalCols
  { name := name,
    shape := (df.nRows, df.cols.length),
    columns := df.colNames,
    numeric_summary :=
      if 0 < numeric_cols.length then some numeric_cols else none,
    missing_values :=
      if 0 < missingTotal then
        some (missing.filter (fun m => decide (0 < m.2)))
      else none,
    categorical_summary :=
      if 0 < categorical_cols.length then
        some ((categorical_cols.take 5).map (fun col =>
          (col, df.nuniqueOf col,
            ((df.valueCountsOf col).take 10).map (fun e => (e.1, e.2.2)))))
      else none }

/-- `generate_summary_statistics` (lines 29-71); the result dict is keyed
by dataset name. -/
def generate_summary_statistics (dataframes : List DFrame) (names : List String) :
    List (String × Summary) :=
  (dataframes.zip names).foldl
    (fun acc p => dictUpsert acc p.2 (mkSummary p.1 p.2)) []

/-- The categorical block of `generate_insights_text`; reading
`list(info["top_values"].keys())[0]` raises `IndexError` on an all-null
column's empty top-values dict. -/
def catSummaryLines (entries : List (String × ℕ × List (String × ℕ))) :
    Except String (List String) :=
  match entries.mapM (fun e =>
      match e.2.2 with
      | [] => Except.error "list index out of range"
      | t :: _ => Except.ok
          ["- `" ++ e.1 ++ "`: " ++ toString e.2.1 ++ " unique values",
           "  - Most frequent: `" ++ t.1 ++ "` (" ++ toString t.2 ++ " times)"]) with
  | .error e => .error e
  | .ok ls => .ok (["\n**📋 Categorical Columns:**"] ++ ls.flatten ++ [""])

/-- `generate_insights_text` (lines 250-301), as the list of lines the
source joins with newlines, or the uncaught exception it raises. -/
def generate_insights_text (summaries : List (String × Summary)) :
    Except String (List String) :=
  match summaries.mapM (fun p =>
      let summary := p.2
      let rows := summary.shape.1
      let cols := summary.shape.2
      let base := ["## " ++ summary.name ++ "\n",
        "**Shape**: " ++ fmtThousands rows ++ " rows × " ++ toString cols ++
          " columns\n"]
      let missingLines :=
        match summary.missing_values with
        | some mv =>
          ["\n**⚠️ Missing Values Found:**"] ++
            mv.map (fun m =>
              let pct : Option ℚ :=
                if rows = 0 then none
                else some ((m.2 : ℚ) / (rows : ℚ) * 100)
              "- `" ++ m.1 ++ "`: " ++ fmtThousands m.2 ++ " (" ++
                fmtFixedOpt pct 1 ++ "%)") ++ [""]
        | none => []
      let numericLines :=
        match summary.numeric_summary with
        | some ncols =>
          ["\n**📈 Numeric Columns (" ++ toString ncols.length ++ "):**",
           String.intercalate ", " ((ncols.take 10).map (fun c => "`" ++ c ++ "`"))] ++
            (if 10 < ncols.length then
              ["... and " ++ toString (ncols.length - 10) ++ " more"] else []) ++
            [""]
        | none => []
      match summary.categorical_summary with
      | some entries =>
        match catSummaryLines entries with
        | .error e => Except.error e
        | .ok catLines =>
          Except.ok (base ++ missingLines ++ numericLines ++ catLines ++ ["---\n"])
      | none =>
        Except.ok (base ++ missingLines ++ numericLines ++ ["---\n"])) with
  | .error e => .error e
  | .ok blocks => .ok (["# 📊 Auto-Generated Data Insights\n"] ++ blocks.flatten)

/-- Sort key of `sorted(..., key=lambda x: x.get("score", 0),
reverse=True)`: the real value of the score.  A NaN score is keyed 0 here;
Python float comparison on NaN is not an order, so every theorem below
that touches the sorted output assumes NaN-free scores, where this key is
exactly the float key. -/
noncomputable def vizScoreR (v : Viz) : ℝ :=
  match v.score with
  | some e => e.den
  | none => 0

/-- Descending stable comparison on scores. -/
noncomputable def vizLeB (a b : Viz) : Bool :=
  decide (vizScoreR b ≤ vizScoreR a)

/-- The four fixed category buckets of `generate_full_report`. -/
structure VizByCat where
  trending : List Viz := []
  correlation : List Viz := []
  distribution : List Viz := []
  categorical : List Viz := []
deriving DecidableEq

/-- The grouping loop (lines 326-328): `viz_by_category[category].append`
raises `KeyError` on a category outside the four fixed keys. -/
def organize_by_category : List Viz → VizByCat → Except String VizByCat
  | [], acc => .ok acc
  | v :: rest, acc =>
    if v.category = "trending" then
      organize_by_category rest { acc with trending := acc.trending ++ [v] }
    else if v.category = "correlation" then
      organize_by_category rest { acc with correlation := acc.correlation ++ [v] }
    else if v.category = "distribution" then
      organize_by_category rest { acc with distribution := acc.distribution ++ [v] }
    else if v.category = "categorical" then
      organize_by_category rest { acc with categorical := acc.categorical ++ [v] }
    else .error ("KeyError: " ++ v.category)

structure AutoReport where
  insights_text : String
  visualizations : List Viz
  visualizations_by_category : VizByCat
  summaries : List (String × Summary)
deriving DecidableEq

/-- `generate_full_report` (lines 303-335): summaries, visualizations,
insights text (which can raise), sort descending by score, group by
category. -/
noncomputable def generate_full_report (dataframes : List DFrame)
    (names : List String) : Except String AutoReport :=
  let summaries := generate_summary_statistics dataframes names
  let visualizations := generate_visualizations dataframes names
  match generate_insights_text summaries with
  | .error e => .error e
  | .ok insights_lines =>
    let visualizations_sorted := visualizations.mergeSort vizLeB
    match organize_by_category visualizations_sorted {} with
    | .error e => .error e
    | .ok viz_by_category =>
      .ok { insights_text := String.intercalate "\n" insights_lines,
            visualizations := visualizations_sorted,
            visualizations_by_category := viz_by_category,
            summaries := summaries }

/-! ### Concrete datasets used by witnesses and counterexamples -/

/-- Three-row numeric dataset. -/
def dfA : DFrame := ⟨[⟨"a", .numeric [some 1, some 2, some 3]⟩]⟩

/-- A distribution hypothesis whose required `column` key is absent. -/
def hypNoColumn : Hypothesis := ⟨1, "t", "d", "distribution", none, none, none, none⟩

/-- A hypothesis of an unrecognized kind. -/
def hypUnknown : Hypothesis := ⟨9, "t", "d", "anomaly_scan", none, none, none, none⟩

/-! ### Claims C4, C7, C9, C10 -/

/-- C4: the Hypothesis Tester never raises: whenever the guarded per-kind
computation fails, the returned result has `success = false` and
`finding = "Could not test this hypothesis: <cause>"` (and the data
payload is the untouched initial `None`). -/
theorem C4_tester_never_raises (df : DFrame) (h : Hypothesis) (e : String)
    (he : test_hypothesis_core df h = .error e) :
    test_hypothesis df h =
      { hypothesis := h, success := false,
        finding := some ("Could not test this hypothesis: " ++ e),
        data := none } := by
  unfold test_hypothesis
  rw [he]

theorem C4_tester_never_raises_witness :
    test_hypothesis_core dfA hypNoColumn = .error "\x27column\x27" ∧
    test_hypothesis dfA hypNoColumn =
      { hypothesis := hypNoColumn, success := false,
        finding := some "Could not test this hypothesis: \x27column\x27",
        data := none } :=
  ⟨rfl, C4_tester_never_raises dfA hypNoColumn "\x27column\x27" rfl⟩

/-- C7 counterexample: the two-row zero-variance column `[5, 5]` has
sample variance exactly 0, yet its histogram score is NaN — pandas
`skew()` is NaN below 3 values, and the score inherits it.  This refutes
the claim for arbitrary zero-variance columns. -/
theorem C7_counterexample :
    colVar [some (5 : ℚ), some 5] = some 0 ∧
    histScore [some (5 : ℚ), some 5] = none :=
  ⟨by with_unfolding_all decide, by with_unfolding_all decide⟩

/-- C7 (amended): for a numeric column whose non-null values are all
equal with at least 3 of them, the histogram score is defined (not NaN)
and its real value is exactly 0: `0/(0 + 1e-10) + |0| * 10 = 0`. -/
theorem C7_zero_variance_score (vs : List (Option ℚ)) (v : ℚ) (n : ℕ)
    (hn : 3 ≤ n) (hvals : nn vs = List.replicate n v) :
    ∃ e, histScore vs = some e ∧ e.den = 0 := by
  have hn0 : (n : ℚ) ≠ 0 := Nat.cast_ne_zero.mpr (by omega)
  have hm2 : m2 vs = 0 := by
    simp only [m2, hvals, List.length_replicate, List.sum_replicate,
      List.map_replicate, nsmul_eq_mul]
    have hmu : (n : ℚ) * v / (n : ℚ) = v := by field_simp
    rw [hmu]
    simp
  have hvar : colVar vs = some 0 := by
    simp only [colVar, hvals, List.length_replicate, hm2]
    rw [if_pos (by omega)]
    simp [zero_div]
  have hskew : colSkew vs = some (.rat 0) := by
    simp only [colSkew, hvals, List.length_replicate, hm2]
    rw [if_neg (by omega)]
    simp
  refine ⟨.addv (.divv (.rat 0) (.addv (.sqrtv (.rat 0)) (.rat (1 / 10 ^ 10))))
    (.mulv (.absv (.rat 0)) (.rat 10)), ?_, ?_⟩
  · simp only [histScore, hvals, List.length_replicate, hskew, hvar]
    rw [if_pos (show 0 < n by omega)]
    rfl
  · simp [RVal.den, Real.sqrt_zero]

theorem C7_zero_variance_score_witness :
    (3 ≤ 5 ∧
      nn [some (5 : ℚ), some 5, some 5, some 5, some 5] = List.replicate 5 5) ∧
    ∃ e, histScore [some (5 : ℚ), some 5, some 5, some 5, some 5] = some e ∧
      e.den = 0 :=
  ⟨⟨by omega, by with_unfolding_all decide⟩,
   C7_zero_variance_score _ 5 5 (by omega) (by with_unfolding_all decide)⟩

/-- C9: the Hypothesis Tester is deterministic: two calls on the same
dataset and hypothesis give identical finding and data.  The verified
content is the embedding itself: `test_hypothesis` in the source reads
only its two arguments (no instance or global state), so it embeds as a
pure function and both calls are the same value. -/
theorem C9_tester_deterministic (df : DFrame) (h : Hypothesis) :
    (test_hypothesis df h).finding = (test_hypothesis df h).finding ∧
    (test_hypothesis df h).data = (test_hypothesis df h).data :=
  ⟨rfl, rfl⟩

/-- C10: on a hypothesis whose `query_type` is none of the six recognized
kinds, the tester returns the untouched initial result
(`success = false`, `finding = None`, `data = None`) without raising, and
the report subsection for it holds only the ❌ header and the description
line — no finding line. -/
theorem C10_unknown_kind (df : DFrame) (h : Hypothesis)
    (hq : h.query_type ∉ (["distribution", "group_comparison", "top_bottom",
      "correlation", "missing_data", "category_distribution"] : List String)) :
    test_hypothesis df h =
      { hypothesis := h, success := false, finding := none, data := none } ∧
    render_hypothesis_section df h =
      ["\n#### ❌ Hypothesis " ++ toString h.id ++ ": " ++ h.title ++ "\n",
       "_" ++ h.description ++ "_\n\n"] := by
  simp only [List.mem_cons, List.not_mem_nil, or_false, not_or] at hq
  obtain ⟨h1, h2, h3, h4, h5, h6⟩ := hq
  have hcore : test_hypothesis df h =
      { hypothesis := h, success := false, finding := none, data := none } := by
    unfold test_hypothesis test_hypothesis_core
    simp [h1, h2, h3, h4, h5, h6]
  refine ⟨hcore, ?_⟩
  unfold render_hypothesis_section
  rw [hcore]
  simp

theorem C10_unknown_kind_witness :
    (hypUnknown.query_type ∉ (["distribution", "group_comparison", "top_bottom",
      "correlation", "missing_data", "category_distribution"] : List String)) ∧
    test_hypothesis dfA hypUnknown =
      { hypothesis := hypUnknown, success := false, finding := none,
        data := none } ∧
    render_hypothesis_section dfA hypUnknown =
      ["\n#### ❌ Hypothesis 9: t\n", "_d_\n\n"] := by
  refine ⟨by decide, ?_⟩
  have := C10_unknown_kind dfA hypUnknown (by decide)
  exact ⟨this.1, by rw [this.2]; decide⟩

/-! ### Claim C2: empty datasets -/

theorem nunique_of_len_zero (c : DCol) (h : c.len = 0) : c.nunique = 0 := by
  cases c with
  | mk name vals =>
    cases vals <;>
      simp_all [DCol.len, DCol.nunique, distinctCount, List.length_eq_zero]

theorem isnaSum_of_len_zero (c : DCol) (h : c.len = 0) : c.isnaSum = 0 := by
  cases c with
  | mk name vals =>
    cases vals <;>
      simp_all [DCol.len, DCol.isnaSum, List.length_eq_zero]

/-- C2 counterexample: the empty (0-row) dataset with one numeric column
`a` still generates a distribution hypothesis (its `metric_cols` is
non-empty), so the hypothesis list is not empty, and the report section
takes the testing path instead of the "could not generate hypotheses"
note.  This refutes the claim for arbitrary empty datasets. -/
def dfEmptyNum : DFrame := ⟨[⟨"a", ColVals.numeric []⟩]⟩

theorem C2_counterexample :
    dfEmptyNum.wellFormed ∧ dfEmptyNum.nRows = 0 ∧
    (analyze_data_structure dfEmptyNum).id_cols = [] ∧
    generate_hypotheses dfEmptyNum (analyze_data_structure dfEmptyNum) =
      [⟨1, "Distribution Analysis of \x27a\x27",
        "What is the distribution of a? Are there outliers?",
        "distribution", some "a", none, none, none⟩] ∧
    "_Could not generate hypotheses for this dataset._\n" ∉
      dataset_section dfEmptyNum "Dataset 1" := by
  refine ⟨by decide, rfl, ?_, ?_, ?_⟩ <;> with_unfolding_all decide

/-- C2 (amended): for every well-formed empty dataset the Structure
Analyzer returns empty `id_cols` (hence `metric_cols` equals the numeric
columns); when the dataset moreover has no numeric column, the Hypothesis
Generator returns the empty list and the Deep Insight Report Builder
emits the "could not generate hypotheses" note for it instead of failing
(the builder is a total function of its inputs). -/
theorem C2_empty_dataset (df : DFrame) (name : String)
    (hwf : df.wellFormed) (h0 : df.nRows = 0) :
    (analyze_data_structure df).id_cols = [] ∧
    (analyze_data_structure df).metric_cols =
      (analyze_data_structure df).numeric_cols ∧
    (df.numericCols = [] →
      generate_hypotheses df (analyze_data_structure df) = [] ∧
      "_Could not generate hypotheses for this dataset._\n" ∈
        dataset_section df name ∧
      "_Could not generate hypotheses for this dataset._\n" ∈
        deep_insight_lines [df] [name]) := by
  have hcol0 : ∀ c ∈ df.cols, c.len = 0 := fun c hc => (hwf c hc).trans h0
  have hnu : ∀ s, df.nuniqueOf s = 0 := by
    intro s
    unfold DFrame.nuniqueOf DFrame.getCol
    cases hfind : df.cols.find? (fun c => decide (c.name = s)) with
    | none => rfl
    | some c =>
      exact nunique_of_len_zero c (hcol0 c (List.mem_of_find?_eq_some hfind))
  have hid : (analyze_data_structure df).id_cols = [] := by
    simp only [analyze_data_structure]
    rw [List.filter_eq_nil_iff]
    intro a _
    simp only [hnu a, h0, Nat.cast_zero, decide_eq_true_eq, not_lt]
    norm_num
  have hmetric : (analyze_data_structure df).metric_cols =
      (analyze_data_structure df).numeric_cols := by
    have : (analyze_data_structure df).metric_cols =
        (analyze_data_structure df).numeric_cols.filter
          (fun col => decide (col ∉ (analyze_data_structure df).id_cols)) := rfl
    rw [this, hid]
    simp
  refine ⟨hid, hmetric, fun hnum => ?_⟩
  have hnumS : (analyze_data_structure df).numeric_cols = [] := hnum
  have h1 : (analyze_data_structure df).metric_cols = [] := by
    rw [hmetric, hnumS]
  have h2 : (analyze_data_structure df).grouping_cols = [] := by
    simp only [analyze_data_structure]
    rw [List.filter_eq_nil_iff]
    intro a _
    simp [hnu a]
  have h3 : missingCols df = [] := by
    unfold missingCols
    rw [List.map_eq_nil_iff, List.filter_eq_nil_iff]
    intro c hc
    simp [isnaSum_of_len_zero c (hcol0 c hc)]
  have hhyps : generate_hypotheses df (analyze_data_structure df) = [] := by
    simp only [generate_hypotheses, h1, h2, h3]
    rfl
  have hmem : "_Could not generate hypotheses for this dataset._\n" ∈
      dataset_section df name := by
    simp only [dataset_section, hhyps]
    simp
  refine ⟨hhyps, hmem, ?_⟩
  have hlines : deep_insight_lines [df] [name] =
      ["# Deep Data Insights\n",
       "_Generated by analyzing data structure and testing hypotheses_\n"] ++
        dataset_section df name := by
    simp [deep_insight_lines]
  rw [hlines]
  exact List.mem_append_right _ hmem

/-! ### Claim C1: the canonical five hypothesis kinds -/

/-- A dataset with exactly 5 rows, 2 metric columns and 1 grouping
column (2 distinct categories), and no missing data. -/
def dfFiveRows : DFrame := ⟨[
  ⟨"a", .numeric [some 1, some 1, some 2, some 2, some 3]⟩,
  ⟨"b", .numeric [some 1, some 2, some 1, some 2, some 1]⟩,
  ⟨"g", .text [some "x", some "y", some "x", some "y", some "x"]⟩]⟩

/-- C1 counterexample: with exactly 5 rows (the claim's "at least 5")
the source's `len(df) > 5` gate drops the `top_bottom` hypothesis, so
only 4 kinds are generated — not the canonical five in either variant. -/
theorem C1_counterexample :
    (2 ≤ (analyze_data_structure dfFiveRows).metric_cols.length ∧
     5 ≤ dfFiveRows.nRows ∧
     (analyze_data_structure dfFiveRows).grouping_cols ≠ []) ∧
    (generate_hypotheses dfFiveRows (analyze_data_structure dfFiveRows)).map
        Hypothesis.query_type =
      ["distribution", "group_comparison", "correlation",
       "category_distribution"] ∧
    (generate_hypotheses dfFiveRows (analyze_data_structure dfFiveRows)).map
        Hypothesis.query_type ≠
      ["distribution", "group_comparison", "top_bottom", "correlation",
       "missing_data"] ∧
    (generate_hypotheses dfFiveRows (analyze_data_structure dfFiveRows)).map
        Hypothesis.query_type ≠
      ["distribution", "group_comparison", "top_bottom", "correlation",
       "category_distribution"] := by
  with_unfolding_all decide

/-- C1 (amended): for every dataset with at least 2 metric columns, at
least one grouping column and **more than 5 rows** (the source gates
`top_bottom` on `len(df) > 5`, not `>= 5`), the generator returns exactly
the five canonical kinds in priority order — the fifth being
`missing_data` when a column has nulls, else the `category_distribution`
filler — and at most 5 hypotheses. -/
theorem C1_canonical_five_kinds (df : DFrame)
    (hm : 2 ≤ (analyze_data_structure df).metric_cols.length)
    (hg : (analyze_data_structure df).grouping_cols ≠ [])
    (hr : 5 < df.nRows) :
    (generate_hypotheses df (analyze_data_structure df)).map
        Hypothesis.query_type =
      ["distribution", "group_comparison", "top_bottom", "correlation",
       if missingCols df = [] then "category_distribution" else "missing_data"] ∧
    (generate_hypotheses df (analyze_data_structure df)).length ≤ 5 := by
  rcases hmc : (analyze_data_structure df).metric_cols with _ | ⟨c1, _ | ⟨c2, mrest⟩⟩
  · rw [hmc] at hm; simp at hm
  · rw [hmc] at hm; simp at hm
  rcases hgc : (analyze_data_structure df).grouping_cols with _ | ⟨g, gs⟩
  · exact absurd hgc hg
  cases hms : missingCols df with
  | nil => simp [generate_hypotheses, hmc, hgc, hms, hr]
  | cons m ms => simp [generate_hypotheses, hmc, hgc, hms, hr]

/-- A dataset with 6 rows, 2 metric columns, 1 grouping column and no
missing data. -/
def dfSixRows : DFrame := ⟨[
  ⟨"a", .numeric [some 1, some 1, some 2, some 2, some 3, some 3]⟩,
  ⟨"b", .numeric [some 1, some 2, some 1, some 2, some 1, some 2]⟩,
  ⟨"g", .text [some "x", some "y", some "x", some "y", some "x", some "y"]⟩]⟩

theorem C1_canonical_five_kinds_witness :
    (2 ≤ (analyze_data_structure dfSixRows).metric_cols.length ∧
     (analyze_data_structure dfSixRows).grouping_cols ≠ [] ∧
     5 < dfSixRows.nRows) ∧
    (generate_hypotheses dfSixRows (analyze_data_structure dfSixRows)).map
        Hypothesis.query_type =
      ["distribution", "group_comparison", "top_bottom", "correlation",
       if missingCols dfSixRows = [] then "category_distribution"
       else "missing_data"] ∧
    (generate_hypotheses dfSixRows (analyze_data_structure dfSixRows)).length ≤ 5 :=
  ⟨⟨by with_unfolding_all decide, by with_unfolding_all decide,
    by with_unfolding_all decide⟩,
   C1_canonical_five_kinds dfSixRows (by with_unfolding_all decide)
     (by with_unfolding_all decide) (by with_unfolding_all decide)⟩

/-! ### Claim C3: hypothesis ids -/

/-- A dataset with 2 metric columns, more than 5 rows, no grouping
column and no missing data: the generated ids are [1, 3, 4]. -/
def dfNoGrouping : DFrame := ⟨[
  ⟨"a", .numeric [some 1, some 1, some 2, some 2, some 3, some 3]⟩,
  ⟨"b", .numeric [some 1, some 2, some 1, some 2, some 1, some 2]⟩]⟩

/-- C3 counterexample: ids are hard-coded per kind slot, so when the
`group_comparison` slot is skipped the generated ids are [1, 3, 4] — the
2nd hypothesis has id 3, not 2, refuting "the k-th generated hypothesis
has id k". -/
theorem C3_counterexample :
    (generate_hypotheses dfNoGrouping (analyze_data_structure dfNoGrouping)).map
      Hypothesis.id = [1, 3, 4] ∧
    ([1, 3, 4] : List ℕ) ≠ [1, 2, 3] :=
  ⟨by with_unfolding_all decide, by decide⟩

set_option maxHeartbeats 3200000 in
/-- C3 (amended): ids are not sequential; each kind carries its fixed
slot number (distribution 1, group_comparison 2, top_bottom 3,
correlation 4, missing_data 5), while the `category_distribution` filler
gets one more than the number of hypotheses generated before it (it is
always last, so its id equals the final list length; in particular ids
can repeat, e.g. [1, 2, 4, 4]).  Hypotheses whose required columns are
absent are skipped without error: the corresponding kinds simply do not
appear. -/
theorem C3_hypothesis_ids (df : DFrame) (s : StructureProfile) :
    (∀ h ∈ generate_hypotheses df s,
      (h.query_type = "distribution" → h.id = 1) ∧
      (h.query_type = "group_comparison" → h.id = 2) ∧
      (h.query_type = "top_bottom" → h.id = 3) ∧
      (h.query_type = "correlation" → h.id = 4) ∧
      (h.query_type = "missing_data" → h.id = 5) ∧
      (h.query_type = "category_distribution" →
        h.id = (generate_hypotheses df s).length)) ∧
    (s.metric_cols = [] → ∀ h ∈ generate_hypotheses df s,
      h.query_type ≠ "distribution" ∧ h.query_type ≠ "group_comparison" ∧
      h.query_type ≠ "top_bottom" ∧ h.query_type ≠ "correlation") ∧
    (s.grouping_cols = [] → ∀ h ∈ generate_hypotheses df s,
      h.query_type ≠ "group_comparison" ∧
      h.query_type ≠ "category_distribution") ∧
    (s.metric_cols.length < 2 → ∀ h ∈ generate_hypotheses df s,
      h.query_type ≠ "correlation") ∧
    (missingCols df = [] → ∀ h ∈ generate_hypotheses df s,
      h.query_type ≠ "missing_data") ∧
    (df.nRows ≤ 5 → ∀ h ∈ generate_hypotheses df s,
      h.query_type ≠ "top_bottom") := by
  rcases hmc : s.metric_cols with _ | ⟨c1, _ | ⟨c2, mrest⟩⟩ <;>
  rcases hgc : s.grouping_cols with _ | ⟨g, gs⟩ <;>
  rcases hms : missingCols df with _ | ⟨m, ms⟩ <;>
  by_cases hr : 5 < df.nRows <;>
  simp [generate_hypotheses, hmc, hgc, hms, hr]

theorem C3_hypothesis_ids_witness :
    (generate_hypotheses dfFiveRows (analyze_data_structure dfFiveRows)).map
        Hypothesis.id = [1, 2, 4, 4] ∧
    ∀ h ∈ generate_hypotheses dfFiveRows (analyze_data_structure dfFiveRows),
      h.query_type = "category_distribution" →
        h.id = (generate_hypotheses dfFiveRows
          (analyze_data_structure dfFiveRows)).length :=
  ⟨by with_unfolding_all decide,
   fun h hm hq => ((C3_hypothesis_ids dfFiveRows
     (analyze_data_structure dfFiveRows)).1 h hm).2.2.2.2.2 hq⟩

/-- The fully empty dataset (no columns, no rows). -/
def dfNoCols : DFrame := ⟨[]⟩

theorem C2_empty_dataset_witness :
    (dfNoCols.wellFormed ∧ dfNoCols.nRows = 0) ∧
    (analyze_data_structure dfNoCols).id_cols = [] ∧
    (analyze_data_structure dfNoCols).metric_cols =
      (analyze_data_structure dfNoCols).numeric_cols ∧
    (dfNoCols.numericCols = [] →
      generate_hypotheses dfNoCols (analyze_data_structure dfNoCols) = [] ∧
      "_Could not generate hypotheses for this dataset._\n" ∈
        dataset_section dfNoCols "Dataset 1" ∧
      "_Could not generate hypotheses for this dataset._\n" ∈
        deep_insight_lines [dfNoCols] ["Dataset 1"]) :=
  ⟨⟨by decide, rfl⟩, C2_empty_dataset dfNoCols "Dataset 1" (by decide) rfl⟩

/-! ### Claim C5: group comparison -/

theorem meanLeB_trans (a b c : String × Option ℚ × ℕ)
    (h1 : meanLeB a b = true) (h2 : meanLeB b c = true) : meanLeB a c = true := by
  rcases a with ⟨as', am, ac⟩
  rcases b with ⟨bs, bm, bc⟩
  rcases c with ⟨cs, cm, cc⟩
  cases am <;> cases bm <;> cases cm <;>
    simp_all [meanLeB] <;> exact le_trans h2 h1

theorem meanLeB_total (a b : String × Option ℚ × ℕ) :
    (meanLeB a b || meanLeB b a) = true := by
  rcases a with ⟨as', am, ac⟩
  rcases b with ⟨bs, bm, bc⟩
  cases am <;> cases bm <;> simp_all [meanLeB] <;> exact le_total _ _

/-- C5: a successful group_comparison test aggregates each group by mean
and count, sorts descending by mean (NaN means last), reports top/bottom
group by mean, and the percentage difference is
`(top_mean - bottom_mean) / bottom_mean * 100` with 0 substituted when
the bottom mean is 0/falsy. -/
theorem C5_group_comparison (df : DFrame) (h : Hypothesis) (g m : String)
    (L : List (String × Option ℚ × ℕ))
    (hqt : h.query_type = "group_comparison")
    (hg : h.group_col = some g) (hm : h.metric_col = some m)
    (hL : group_agg_sorted df g m = .ok L) (hne : L ≠ []) :
    L.Pairwise (fun a b => meanLeB a b = true) ∧
    (test_hypothesis df h).success = true ∧
    (test_hypothesis df h).finding =
      some (format_group_comparison_finding g m L) ∧
    (∀ top rest, L = top :: rest →
      format_group_comparison_finding g m L =
        "**" ++ g ++ "** shows significant variation in " ++ m ++
          ". \x27" ++ top.1 ++ "\x27 has the highest average (" ++
          fmtFixedOpt top.2.1 2 ++ "), while \x27" ++ (rest.getLastD top).1 ++
          "\x27 has the lowest (" ++ fmtFixedOpt (rest.getLastD top).2.1 2 ++
          "). Difference: " ++
          fmtFixedOpt
            (match (rest.getLastD top).2.1 with
             | some b =>
               if b = 0 then some 0
               else Option.map (fun t => (t - b) / b * 100) top.2.1
             | none => none) 1 ++ "%.") := by
  have hpair : L.Pairwise (fun a b => meanLeB a b = true) := by
    unfold group_agg_sorted at hL
    split at hL
    · exact absurd hL (by simp)
    · split at hL
      · exact absurd hL (by simp)
      · split at hL
        · split at hL <;>
            · simp only [Except.ok.injEq] at hL
              rw [← hL]
              exact List.sorted_mergeSort meanLeB_trans meanLeB_total _
        all_goals exact absurd hL (by simp)
  obtain ⟨top, rest, rfl⟩ : ∃ t r, L = t :: r := by
    cases L with
    | nil => exact absurd rfl hne
    | cons t r => exact ⟨t, r, rfl⟩
  have hcore : test_hypothesis_core df h = .ok
      { hypothesis := h, success := true,
        finding := some (format_group_comparison_finding g m (top :: rest)),
        data := some (.groupDict ((top :: rest).take 10)) } := by
    unfold test_hypothesis_core
    rw [hqt]
    simp only [hg, hm, hL, String.reduceEq, reduceIte]
  refine ⟨hpair, ?_, ?_, ?_⟩
  · unfold test_hypothesis; rw [hcore]
  · unfold test_hypothesis; rw [hcore]
  · intro top' rest' hEq
    cases hEq
    unfold format_group_comparison_finding
    rcases htm : top.2.1 with _ | t <;>
      rcases hbm : (rest.getLastD top).2.1 with _ | b <;>
        (rw [List.getLastD_eq_getLast?] at hbm; simp [htm, hbm])

/-- The group-comparison scenario dataset: groups X (mean 100) and
Y (mean 50). -/
def dfGroupCmp : DFrame := ⟨[
  ⟨"g", .text [some "X", some "X", some "Y", some "Y"]⟩,
  ⟨"v", .numeric [some 100, some 100, some 50, some 50]⟩]⟩

def hypGroupCmp : Hypothesis :=
  ⟨2, "Comparison by \x27g\x27", "d", "group_comparison", none, some "g",
    some "v", none⟩

theorem C5_group_comparison_witness :
    group_agg_sorted dfGroupCmp "g" "v" =
      .ok [("X", some 100, 2), ("Y", some 50, 2)] ∧
    ((test_hypothesis dfGroupCmp hypGroupCmp).success = true ∧
     (test_hypothesis dfGroupCmp hypGroupCmp).finding =
       some (format_group_comparison_finding "g" "v"
         [("X", some 100, 2), ("Y", some 50, 2)])) ∧
    format_group_comparison_finding "g" "v"
        [("X", some 100, 2), ("Y", some 50, 2)] =
      "**g** shows significant variation in v. \x27X\x27 has the highest " ++
        "average (100.00), while \x27Y\x27 has the lowest (50.00). " ++
        "Difference: 100.0%." := by
  have hagg : group_agg_sorted dfGroupCmp "g" "v" =
      .ok [("X", some 100, 2), ("Y", some 50, 2)] := by
    with_unfolding_all rfl
  have hmain := C5_group_comparison dfGroupCmp hypGroupCmp "g" "v"
    [("X", some 100, 2), ("Y", some 50, 2)] rfl rfl rfl hagg (by decide)
  exact ⟨hagg, ⟨hmain.2.1, hmain.2.2.1⟩, by with_unfolding_all decide⟩

/-! ### Claim C6: correlation classification -/

/-- For positive `s` and nonnegative `t`:
`t < |c / sqrt s|` iff `t² * s < c²` — the algebraic bridge between the
float comparison `abs(corr) > t` and its rational-square embedding. -/
theorem lt_abs_div_sqrt_iff (c s t : ℝ) (hs : 0 < s) (ht : 0 ≤ t) :
    t < |c / Real.sqrt s| ↔ t ^ 2 * s < c ^ 2 := by
  rw [abs_div, abs_of_pos (Real.sqrt_pos.mpr hs), ← Real.sqrt_sq_eq_abs,
    ← Real.sqrt_div (sq_nonneg c) s, Real.lt_sqrt ht, lt_div_iff₀ hs]

/-- C6: for a successful correlation test with non-degenerate columns
(`sxx * syy > 0`), the strength classification of the embedding is
exactly the classification of the real Pearson coefficient
`r = sxy / sqrt(sxx * syy)` by `|r| > 0.7 / 0.4 / 0.2`, the direction is
positive iff `r > 0`, and the tester reports the formatted finding. -/
theorem C6_correlation_classification (df : DFrame) (h : Hypothesis)
    (c1 c2 : String) (rest : List String) (sxy sxx syy : ℚ)
    (a b : DCol) (av bv : List (Option ℚ))
    (hqt : h.query_type = "correlation")
    (hcols : h.columns = some (c1 :: c2 :: rest))
    (ha : df.getCol c1 = some a) (hb : df.getCol c2 = some b)
    (hav : a.vals = .numeric av) (hbv : b.vals = .numeric bv)
    (hst : corrStat av bv = (sxy, sxx, syy))
    (hS : 0 < sxx * syy) :
    corrStrength sxy sxx syy =
      (if (7/10 : ℝ) < |(sxy : ℝ) / Real.sqrt ((sxx * syy : ℚ) : ℝ)| then
        "strong"
       else if (4/10 : ℝ) < |(sxy : ℝ) / Real.sqrt ((sxx * syy : ℚ) : ℝ)| then
        "moderate"
       else if (2/10 : ℝ) < |(sxy : ℝ) / Real.sqrt ((sxx * syy : ℚ) : ℝ)| then
        "weak"
       else "no") ∧
    corrDirection sxy =
      (if (0 : ℝ) < (sxy : ℝ) / Real.sqrt ((sxx * syy : ℚ) : ℝ) then
        "positive" else "negative") ∧
    (test_hypothesis df h).success = true ∧
    (test_hypothesis df h).finding =
      some (format_correlation_finding c1 c2 sxy sxx syy) := by
  have hSr : (0 : ℝ) < ((sxx * syy : ℚ) : ℝ) := by exact_mod_cast hS
  have key : ∀ t : ℚ, 0 ≤ t →
      ((t : ℝ) < |(sxy : ℝ) / Real.sqrt ((sxx * syy : ℚ) : ℝ)| ↔
        t ^ 2 * (sxx * syy) < sxy ^ 2) := by
    intro t ht
    rw [lt_abs_div_sqrt_iff (sxy : ℝ) ((sxx * syy : ℚ) : ℝ) (t : ℝ) hSr
      (by exact_mod_cast ht)]
    constructor
    · intro hx; exact_mod_cast hx
    · intro hx; exact_mod_cast hx
  have h07 := key (7/10) (by norm_num)
  have h04 := key (4/10) (by norm_num)
  have h02 := key (2/10) (by norm_num)
  have hdir : ((0 : ℝ) < (sxy : ℝ) / Real.sqrt ((sxx * syy : ℚ) : ℝ)) ↔
      0 < sxy := by
    rw [lt_div_iff₀ (Real.sqrt_pos.mpr hSr)]
    simp only [zero_mul]
    exact ⟨fun hx => by exact_mod_cast hx, fun hx => by exact_mod_cast hx⟩
  have hcore : test_hypothesis_core df h = .ok
      { hypothesis := h, success := true,
        finding := some (format_correlation_finding c1 c2 sxy sxx syy),
        data := some (.corrVal
          (if sxx * syy = 0 then none
           else some (.divv (.rat sxy) (.sqrtv (.rat (sxx * syy)))))) } := by
    unfold test_hypothesis_core
    rw [hqt]
    simp only [hcols, ha, hb, hav, hbv, hst, String.reduceEq, reduceIte]
  refine ⟨?_, ?_, ?_, ?_⟩
  · push_cast at h07 h04 h02 ⊢
    simp only [h07, h04, h02]
    unfold corrStrength
    rw [show ((7/10 : ℚ)) ^ 2 = 49/100 by norm_num,
      show ((4/10 : ℚ)) ^ 2 = 16/100 by norm_num,
      show ((2/10 : ℚ)) ^ 2 = 4/100 by norm_num]
  · simp only [hdir]
    unfold corrDirection
    simp
  · unfold test_hypothesis; rw [hcore]
  · unfold test_hypothesis; rw [hcore]

/-- The correlation scenario dataset: `col2 = 2 * col1`. -/
def dfCorr5 : DFrame := ⟨[
  ⟨"c1", .numeric [some 1, some 2, some 3, some 4, some 5]⟩,
  ⟨"c2", .numeric [some 2, some 4, some 6, some 8, some 10]⟩]⟩

def hypCorr : Hypothesis :=
  ⟨4, "t", "d", "correlation", none, none, none, some ["c1", "c2"]⟩

set_option maxRecDepth 8000 in
theorem C6_correlation_classification_witness :
    corrStat [some 1, some 2, some 3, some 4, some 5]
      [some 2, some 4, some 6, some 8, some 10] = (20, 10, 40) ∧
    (0 : ℚ) < 10 * 40 ∧
    (20 : ℝ) / Real.sqrt ((10 * 40 : ℚ) : ℝ) = 1 ∧
    corrStrength 20 10 40 = "strong" ∧
    corrDirection 20 = "positive" ∧
    (test_hypothesis dfCorr5 hypCorr).finding =
      some ("There is a **strong positive correlation** (r=1.000) between " ++
        "c1 and c2.") := by
  have hst : corrStat [some 1, some 2, some 3, some 4, some 5]
      [some 2, some 4, some 6, some 8, some 10] = (20, 10, 40) := by
    with_unfolding_all decide
  have hmain := C6_correlation_classification dfCorr5 hypCorr "c1" "c2" []
    20 10 40 ⟨"c1", .numeric [some 1, some 2, some 3, some 4, some 5]⟩
    ⟨"c2", .numeric [some 2, some 4, some 6, some 8, some 10]⟩
    [some 1, some 2, some 3, some 4, some 5]
    [some 2, some 4, some 6, some 8, some 10]
    rfl rfl (by with_unfolding_all rfl) (by with_unfolding_all rfl)
    rfl rfl hst (by norm_num)
  have hr1 : (20 : ℝ) / Real.sqrt ((10 * 40 : ℚ) : ℝ) = 1 := by
    rw [show ((10 * 40 : ℚ) : ℝ) = (20 : ℝ) ^ 2 by norm_num,
      Real.sqrt_sq (by norm_num)]
    norm_num
  have hfmt : format_correlation_finding "c1" "c2" 20 10 40 =
      "There is a **strong positive correlation** (r=1.000) between " ++
        "c1 and c2." := by
    with_unfolding_all decide
  exact ⟨hst, by norm_num, hr1, by with_unfolding_all decide,
    by with_unfolding_all decide, hmain.2.2.2.trans (by rw [hfmt])⟩

/-! ### Claim C8: the Auto-Insight full report -/

/-- Every visualization the generator emits carries one of the four
fixed categories. -/
theorem viz_for_df_category (df : DFrame) (name : String) :
    ∀ v ∈ viz_for_df df name,
      v.category ∈
        (["trending", "correlation", "distribution", "categorical"] :
          List String) := by
  intro v hv
  unfold viz_for_df at hv
  simp only [List.mem_append] at hv
  rcases hv with ((h1 | h2) | h3) | h4
  · obtain ⟨c, _, rfl⟩ := List.mem_map.mp h1
    simp
  · obtain ⟨c, _, rfl⟩ := List.mem_map.mp h2
    simp
  · split at h3
    · obtain ⟨c, _, rfl⟩ := List.mem_map.mp h3
      simp
    · simp at h3
  · split at h4
    · simp only [List.mem_singleton] at h4
      subst h4
      simp
    · simp at h4

theorem generate_visualizations_category (dataframes : List DFrame)
    (names : List String) :
    ∀ v ∈ generate_visualizations dataframes names,
      v.category ∈
        (["trending", "correlation", "distribution", "categorical"] :
          List String) := by
  intro v hv
  unfold generate_visualizations at hv
  obtain ⟨p, _, hp⟩ := List.mem_flatMap.mp hv
  exact viz_for_df_category p.1 p.2 v hp

theorem vizLeB_trans (a b c : Viz) (h1 : vizLeB a b = true)
    (h2 : vizLeB b c = true) : vizLeB a c = true := by
  simp only [vizLeB, decide_eq_true_eq] at h1 h2 ⊢
  exact le_trans h2 h1

theorem vizLeB_total (a b : Viz) : (vizLeB a b || vizLeB b a) = true := by
  simp only [vizLeB, Bool.or_eq_true, decide_eq_true_eq]
  exact le_total _ _

/-- The grouping fold succeeds on any list whose categories are among
the four fixed keys, and each bucket holds only its own category. -/
theorem organize_invariant (vs : List Viz) (acc : VizByCat)
    (hvs : ∀ v ∈ vs, v.category ∈
      (["trending", "correlation", "distribution", "categorical"] :
        List String))
    (ht : ∀ v ∈ acc.trending, v.category = "trending")
    (hc : ∀ v ∈ acc.correlation, v.category = "correlation")
    (hd : ∀ v ∈ acc.distribution, v.category = "distribution")
    (hg : ∀ v ∈ acc.categorical, v.category = "categorical") :
    ∃ r, organize_by_category vs acc = .ok r ∧
      (∀ v ∈ r.trending, v.category = "trending") ∧
      (∀ v ∈ r.correlation, v.category = "correlation") ∧
      (∀ v ∈ r.distribution, v.category = "distribution") ∧
      (∀ v ∈ r.categorical, v.category = "categorical") := by
  induction vs generalizing acc with
  | nil => exact ⟨acc, rfl, ht, hc, hd, hg⟩
  | cons v rest ih =>
    have hcat := hvs v (by simp)
    have hrest : ∀ w ∈ rest, w.category ∈
        (["trending", "correlation", "distribution", "categorical"] :
          List String) := fun w hw => hvs w (by simp [hw])
    simp only [List.mem_cons, List.not_mem_nil, or_false] at hcat
    rcases hcat with h | h | h | h
    · have : organize_by_category (v :: rest) acc =
          organize_by_category rest { acc with trending := acc.trending ++ [v] } := by
        unfold organize_by_category
        rw [if_pos h]
        exact organize_by_category.eq_def _ _
      rw [this]
      exact ih _ hrest
        (fun w hw => by
          rcases List.mem_append.mp hw with hw | hw
          · exact ht w hw
          · simp only [List.mem_singleton] at hw; subst hw; exact h)
        hc hd hg
    · have : organize_by_category (v :: rest) acc =
          organize_by_category rest
            { acc with correlation := acc.correlation ++ [v] } := by
        unfold organize_by_category
        rw [if_neg (by rw [h]; decide), if_pos h]
        exact organize_by_category.eq_def _ _
      rw [this]
      exact ih _ hrest ht
        (fun w hw => by
          rcases List.mem_append.mp hw with hw | hw
          · exact hc w hw
          · simp only [List.mem_singleton] at hw; subst hw; exact h)
        hd hg
    · have : organize_by_category (v :: rest) acc =
          organize_by_category rest
            { acc with distribution := acc.distribution ++ [v] } := by
        unfold organize_by_category
        rw [if_neg (by rw [h]; decide), if_neg (by rw [h]; decide), if_pos h]
        exact organize_by_category.eq_def _ _
      rw [this]
      exact ih _ hrest ht hc
        (fun w hw => by
          rcases List.mem_append.mp hw with hw | hw
          · exact hd w hw
          · simp only [List.mem_singleton] at hw; subst hw; exact h)
        hg
    · have : organize_by_category (v :: rest) acc =
          organize_by_category rest
            { acc with categorical := acc.categorical ++ [v] } := by
        unfold organize_by_category
        rw [if_neg (by rw [h]; decide), if_neg (by rw [h]; decide),
          if_neg (by rw [h]; decide), if_pos h]
        exact organize_by_category.eq_def _ _
      rw [this]
      exact ih _ hrest ht hc hd
        (fun w hw => by
          rcases List.mem_append.mp hw with hw | hw
          · exact hg w hw
          · simp only [List.mem_singleton] at hw; subst hw; exact h)

/-- A summary whose categorical entries all carry a non-empty top-values
list (the condition under which `generate_insights_text` cannot raise). -/
def GoodSummary (s : Summary) : Prop :=
  ∀ entries, s.categorical_summary = some entries → ∀ e ∈ entries, e.2.2 ≠ []

theorem mapM_ok {α β : Type} (f : α → Except String β) (l : List α)
    (h : ∀ x ∈ l, ∃ y, f x = .ok y) : ∃ ys, l.mapM f = .ok ys := by
  induction l with
  | nil => exact ⟨[], rfl⟩
  | cons a as ih =>
    obtain ⟨y, hy⟩ := h a (by simp)
    obtain ⟨ys, hys⟩ := ih (fun x hx => h x (by simp [hx]))
    refine ⟨y :: ys, ?_⟩
    rw [List.mapM_cons, hy, hys]
    rfl

theorem valueCountsG_length {α : Type} [DecidableEq α] (render rep : α → String)
    (vs : List (Option α)) :
    (valueCountsG render rep vs).length = (vs.filterMap id).dedup.length := by
  unfold valueCountsG
  rw [List.length_mergeSort, List.length_map]

theorem DCol.valueCounts_ne_nil (c : DCol) (h : c.nunique ≠ 0) :
    c.valueCounts ≠ [] := by
  intro hnil
  apply h
  cases c with
  | mk nm vals =>
    cases vals with
    | numeric vs =>
      have := congrArg List.length hnil
      simp only [DCol.valueCounts] at this
      rw [valueCountsG_length] at this
      simpa [DCol.nunique, distinctCount] using this
    | text vs =>
      have := congrArg List.length hnil
      simp only [DCol.valueCounts] at this
      rw [valueCountsG_length] at this
      simpa [DCol.nunique, distinctCount] using this
    | datetime vs =>
      have := congrArg List.length hnil
      simp only [DCol.valueCounts] at this
      rw [valueCountsG_length] at this
      simpa [DCol.nunique, distinctCount] using this

/-- If every column of `df` has a non-null value, the per-dataset summary
is good. -/
theorem mkSummary_good (df : DFrame) (name : String)
    (hcat : ∀ c ∈ df.cols, c.nunique ≠ 0) :
    GoodSummary (mkSummary df name) := by
  intro entries hentries e he
  unfold mkSummary at hentries
  simp only at hentries
  split at hentries
  · simp only [Option.some.injEq] at hentries
    subst hentries
    obtain ⟨col, hcol, rfl⟩ := List.mem_map.mp he
    have hcolcat : col ∈ df.categoricalCols := List.mem_of_mem_take hcol
    obtain ⟨c, hc, hcname⟩ : ∃ c ∈ df.cols, c.name = col := by
      unfold DFrame.categoricalCols at hcolcat
      obtain ⟨c, hc, rfl⟩ := List.mem_map.mp hcolcat
      exact ⟨c, List.mem_of_mem_filter hc, rfl⟩
    have hfound : ∃ c', df.getCol col = some c' ∧ c' ∈ df.cols := by
      unfold DFrame.getCol
      have hsome : (df.cols.find? (fun c => decide (c.name = col))).isSome := by
        rw [List.find?_isSome]
        exact ⟨c, hc, by simp [hcname]⟩
      obtain ⟨c', hc'⟩ := Option.isSome_iff_exists.mp hsome
      exact ⟨c', hc', List.mem_of_find?_eq_some hc'⟩
    obtain ⟨c', hget, hmem⟩ := hfound
    have hvc : df.valueCountsOf col ≠ [] := by
      unfold DFrame.valueCountsOf
      rw [hget]
      exact c'.valueCounts_ne_nil (hcat c' hmem)
    simp only [ne_eq, List.map_eq_nil_iff, List.take_eq_nil_iff]
    intro hx
    rcases hx with hx | hx
    · exact (by norm_num : (10 : ℕ) ≠ 0) hx
    · exact hvc hx
  · exact absurd hentries (by simp)

theorem dictUpsert_good (l : List (String × Summary)) (k : String) (v : Summary)
    (hlg : ∀ p ∈ l, GoodSummary p.2) (hv : GoodSummary v) :
    ∀ p ∈ dictUpsert l k v, GoodSummary p.2 := by
  intro p hp
  unfold dictUpsert at hp
  split at hp
  · obtain ⟨e, he, hpe⟩ := List.mem_map.mp hp
    by_cases hek : e.1 = k
    · rw [if_pos hek] at hpe
      subst hpe
      exact hv
    · rw [if_neg hek] at hpe
      subst hpe
      exact hlg e he
  · rcases List.mem_append.mp hp with hp | hp
    · exact hlg p hp
    · simp only [List.mem_singleton] at hp
      subst hp
      exact hv

theorem foldl_upsert_good (l : List (DFrame × String))
    (acc : List (String × Summary))
    (haccg : ∀ p ∈ acc, GoodSummary p.2)
    (hl : ∀ q ∈ l, GoodSummary (mkSummary q.1 q.2)) :
    ∀ p ∈ l.foldl (fun acc p => dictUpsert acc p.2 (mkSummary p.1 p.2)) acc,
      GoodSummary p.2 := by
  induction l generalizing acc with
  | nil => simpa using haccg
  | cons q rest ih =>
    simp only [List.foldl_cons]
    exact ih _
      (dictUpsert_good _ _ _ haccg (hl q (by simp)))
      (fun r hr => hl r (by simp [hr]))

theorem summaries_good (dataframes : List DFrame) (names : List String)
    (hcat : ∀ df ∈ dataframes, ∀ c ∈ df.cols, c.nunique ≠ 0) :
    ∀ p ∈ generate_summary_statistics dataframes names, GoodSummary p.2 := by
  unfold generate_summary_statistics
  exact foldl_upsert_good _ _ (by simp)
    (fun q hq => mkSummary_good q.1 q.2 (hcat q.1 (List.of_mem_zip hq).1))

theorem insights_text_ok (summaries : List (String × Summary))
    (h : ∀ p ∈ summaries, GoodSummary p.2) :
    ∃ ls, generate_insights_text summaries = .ok ls := by
  unfold generate_insights_text
  have hall : ∀ p ∈ summaries, ∃ y,
      (fun (p : String × Summary) =>
        let summary := p.2
        let rows := summary.shape.1
        let cols := summary.shape.2
        let base := ["## " ++ summary.name ++ "\n",
          "**Shape**: " ++ fmtThousands rows ++ " rows × " ++ toString cols ++
            " columns\n"]
        let missingLines :=
          match summary.missing_values with
          | some mv =>
            ["\n**⚠️ Missing Values Found:**"] ++
              mv.map (fun m =>
                let pct : Option ℚ :=
                  if rows = 0 then none
                  else some ((m.2 : ℚ) / (rows : ℚ) * 100)
                "- `" ++ m.1 ++ "`: " ++ fmtThousands m.2 ++ " (" ++
                  fmtFixedOpt pct 1 ++ "%)") ++ [""]
          | none => []
        let numericLines :=
          match summary.numeric_summary with
          | some ncols =>
            ["\n**📈 Numeric Columns (" ++ toString ncols.length ++ "):**",
             String.intercalate ", "
               ((ncols.take 10).map (fun c => "`" ++ c ++ "`"))] ++
              (if 10 < ncols.length then
                ["... and " ++ toString (ncols.length - 10) ++ " more"]
              else []) ++ [""]
          | none => []
        match summary.categorical_summary with
        | some entries =>
          match catSummaryLines entries with
          | .error e => Except.error e
          | .ok catLines =>
            Except.ok (base ++ missingLines ++ numericLines ++ catLines ++
              ["---\n"])
        | none =>
          Except.ok (base ++ missingLines ++ numericLines ++ ["---\n"])) p =
        .ok y := by
    intro p hp
    cases hcs : p.2.categorical_summary with
    | none => exact ⟨_, by simp only [hcs]; rfl⟩
    | some entries =>
      have hgood := h p hp entries hcs
      obtain ⟨ls2, hls2⟩ : ∃ ls2, catSummaryLines entries = .ok ls2 := by
        unfold catSummaryLines
        have hok : ∀ e ∈ entries, ∃ y,
            (fun (e : String × ℕ × List (String × ℕ)) =>
              match e.2.2 with
              | [] => Except.error "list index out of range"
              | t :: _ => Except.ok
                  (["- `" ++ e.1 ++ "`: " ++ toString e.2.1 ++
                      " unique values",
                    "  - Most frequent: `" ++ t.1 ++ "` (" ++ toString t.2 ++
                      " times)"] : List String)) e = .ok y := by
          intro e he
          cases he2 : e.2.2 with
          | nil => exact absurd he2 (hgood e he)
          | cons t ts => exact ⟨_, by simp only [he2]; rfl⟩
        obtain ⟨zz, hzz⟩ := mapM_ok _ entries hok
        rw [hzz]
        exact ⟨_, rfl⟩
      exact ⟨_, by simp only [hcs, hls2]; rfl⟩
  obtain ⟨ys, hys⟩ := mapM_ok _ summaries hall
  rw [hys]
  exact ⟨_, rfl⟩

/-- C8 (amended): for every batch in which every column of every dataset
has at least one non-null value (an all-null categorical column makes the
source raise `IndexError`, see the counterexample) and no visualization
score is NaN (the embedding's float-order boundary), the Auto-Insight
Report Builder succeeds, returns the visualizations sorted descending by
score (a permutation of the generated ones), and the four fixed category
buckets hold exactly the members carrying their category. -/
theorem C8_full_report (dataframes : List DFrame) (names : List String)
    (hcat : ∀ df ∈ dataframes, ∀ c ∈ df.cols, c.nunique ≠ 0)
    (hnan : ∀ v ∈ generate_visualizations dataframes names, v.score.isSome) :
    ∃ rep, generate_full_report dataframes names = .ok rep ∧
      (∀ v ∈ rep.visualizations, v.score.isSome) ∧
      rep.visualizations.Pairwise (fun a b => vizScoreR b ≤ vizScoreR a) ∧
      rep.visualizations.Perm (generate_visualizations dataframes names) ∧
      (∀ v ∈ rep.visualizations_by_category.trending,
        v.category = "trending") ∧
      (∀ v ∈ rep.visualizations_by_category.correlation,
        v.category = "correlation") ∧
      (∀ v ∈ rep.visualizations_by_category.distribution,
        v.category = "distribution") ∧
      (∀ v ∈ rep.visualizations_by_category.categorical,
        v.category = "categorical") := by
  obtain ⟨ls, hls⟩ := insights_text_ok _ (summaries_good dataframes names hcat)
  have hperm := List.mergeSort_perm (generate_visualizations dataframes names)
    vizLeB
  have hsorted := List.sorted_mergeSort vizLeB_trans vizLeB_total
    (generate_visualizations dataframes names)
  have hcats : ∀ v ∈ (generate_visualizations dataframes names).mergeSort
      vizLeB, v.category ∈
      (["trending", "correlation", "distribution", "categorical"] :
        List String) :=
    fun v hv => generate_visualizations_category _ _ v (hperm.subset hv)
  obtain ⟨r, hr, h1, h2, h3, h4⟩ := organize_invariant _ {} hcats
    (by intro v hv; exact absurd hv (List.not_mem_nil v))
    (by intro v hv; exact absurd hv (List.not_mem_nil v))
    (by intro v hv; exact absurd hv (List.not_mem_nil v))
    (by intro v hv; exact absurd hv (List.not_mem_nil v))
  refine ⟨{ insights_text := String.intercalate "\n" ls,
            visualizations :=
              (generate_visualizations dataframes names).mergeSort vizLeB,
            visualizations_by_category := r,
            summaries := generate_summary_statistics dataframes names },
    ?_, fun v hv => hnan v (hperm.subset hv), ?_, hperm, h1, h2, h3, h4⟩
  · simp only [generate_full_report, hls, hr]
  · exact hsorted.imp
      (fun hab => by simpa [vizLeB, decide_eq_true_eq] using hab)

/-- A dataset giving one histogram and one bar visualization, both with
defined (non-NaN) scores. -/
def dfWitness : DFrame := ⟨[
  ⟨"a", .numeric [some 1, some 2, some 3, some 4]⟩,
  ⟨"g", .text [some "x", some "x", some "y", some "y"]⟩]⟩

theorem C8_full_report_witness :
    (∀ df ∈ [dfWitness], ∀ c ∈ df.cols, c.nunique ≠ 0) ∧
    (∀ v ∈ generate_visualizations [dfWitness] ["Dataset 1"],
      v.score.isSome) ∧
    ∃ rep, generate_full_report [dfWitness] ["Dataset 1"] = .ok rep ∧
      (∀ v ∈ rep.visualizations, v.score.isSome) ∧
      rep.visualizations.Pairwise (fun a b => vizScoreR b ≤ vizScoreR a) ∧
      rep.visualizations.Perm
        (generate_visualizations [dfWitness] ["Dataset 1"]) ∧
      (∀ v ∈ rep.visualizations_by_category.trending,
        v.category = "trending") ∧
      (∀ v ∈ rep.visualizations_by_category.correlation,
        v.category = "correlation") ∧
      (∀ v ∈ rep.visualizations_by_category.distribution,
        v.category = "distribution") ∧
      (∀ v ∈ rep.visualizations_by_category.categorical,
        v.category = "categorical") :=
  ⟨by with_unfolding_all decide, by with_unfolding_all decide,
   C8_full_report [dfWitness] ["Dataset 1"] (by with_unfolding_all decide)
     (by with_unfolding_all decide)⟩

/-- A dataset with an all-null categorical column. -/
def dfAllNullCat : DFrame := ⟨[⟨"c", .text [none]⟩]⟩

/-- C8 counterexample: on a batch with an all-null categorical column the
builder does not return a report at all — `generate_insights_text` hits
`list(info["top_values"].keys())[0]` on an empty dict and the resulting
`IndexError` escapes `generate_full_report`, refuting the claim for
arbitrary batches. -/
theorem C8_counterexample :
    generate_insights_text
      (generate_summary_statistics [dfAllNullCat] ["Dataset 1"]) =
      .error "list index out of range" ∧
    generate_full_report [dfAllNullCat] ["Dataset 1"] =
      .error "list index out of range" := by
  have h1 : generate_insights_text
      (generate_summary_statistics [dfAllNullCat] ["Dataset 1"]) =
      .error "list index out of range" := by
    with_unfolding_all rfl
  exact ⟨h1, by simp only [generate_full_report, h1]⟩
